import Mathlib

/-!
# PulseOximeterWrapper: a shallow embedding

Embedding of `PulseOximeterWrapper.h` / `PulseOximeterWrapper.cpp`
(RecoveryTimer_v2.0_Simplified): the session object that buffers raw
(red, infrared) samples, periodically runs the saturation / heart-rate
estimator, smooths its output and regulates the emitter brightness.

Conventions of the embedding.

* The object is a record `State` of its member variables; every member
  function is a function on `State`.
* `uint32_t`, `byte` and `unsigned long` values are natural numbers; the two
  places where unsigned arithmetic can leave the range are written with an
  explicit reduction (`subU32` for `millis() - last`, `% 256` for the
  conversion to `byte`).
* `int` values are integers.  The arithmetic of `_updateEMA`, whose arguments
  are unconstrained, is done in two's complement on `w` bits (`wrapInt w`),
  `w` being the width of `int` on the target (16 on AVR, 32 on ARM / ESP32).
* The members of this repository's collaborators are inputs: the samples
  waiting in the sensor FIFO, the values returned by `millis()` and the
  estimator `maxim_heart_rate_and_oxygen_saturation` are the fields of a
  `Poll`.  Calls that only write to the sensor driver
  (`setPulseAmplitudeRed`, `setPulseAmplitudeIR`, `check`) leave `State`
  unchanged.
-/

namespace PulseOximeterWrapper

/-! ## Configuration constants (PulseOximeterWrapper.h) -/

/-- `static const byte LED_BRIGHTNESS = 220;` -/
def LED_BRIGHTNESS : Nat := 220

/-- `static const int32_t BUFFER_LENGTH = 100;` -/
def BUFFER_LENGTH : Nat := 100

/-- `static const int EMA_NUMERATOR = 3;` -/
def EMA_NUMERATOR : Int := 3

/-- `static const int EMA_DENOMINATOR = 10;` -/
def EMA_DENOMINATOR : Int := 10

/-- `static const uint32_t FINGER_THRESHOLD = 15000;` -/
def FINGER_THRESHOLD : Nat := 15000

/-- `static const uint32_t IR_TARGET_LOW = 25000;` -/
def IR_TARGET_LOW : Nat := 25000

/-- `static const uint32_t IR_TARGET_HIGH = 90000;` -/
def IR_TARGET_HIGH : Nat := 90000

/-- `static const byte LED_MIN = 20;` -/
def LED_MIN : Nat := 20

/-- `static const byte LED_MAX = 255;` -/
def LED_MAX : Nat := 255

/-- `static const byte LED_STEP = 5;` -/
def LED_STEP : Nat := 5

/-- `static const unsigned long GAIN_ADJUSTMENT_INTERVAL = 800;` -/
def GAIN_ADJUSTMENT_INTERVAL : Nat := 800

/-- `static const unsigned long CALCULATION_INTERVAL = 1000;` -/
def CALCULATION_INTERVAL : Nat := 1000

/-! ## Machine arithmetic -/

/-- Two's complement reduction of an integer to a signed `w`-bit `int`. -/
def wrapInt (w : Nat) (x : Int) : Int :=
  (x + 2 ^ (w - 1)) % 2 ^ w - 2 ^ (w - 1)

/-- The integer `x` is representable as a signed `w`-bit `int`. -/
def fitsInt (w : Nat) (x : Int) : Prop :=
  -(2 ^ (w - 1)) ≤ x ∧ x < 2 ^ (w - 1)

instance (w : Nat) (x : Int) : Decidable (fitsInt w x) := by
  unfold fitsInt; infer_instance

/-- Subtraction of two `unsigned long` (32-bit) values: `a - b` modulo 2^32. -/
def subU32 (a b : Nat) : Nat :=
  (a + 4294967296 - b % 4294967296) % 4294967296

/-- Conversion of an `int` to `byte` (`uint8_t`): reduction modulo 256. -/
def toByte (x : Int) : Nat :=
  (x % 256).toNat

/-! ## Data model -/

/-- One (red, infrared) reading popped from the sensor FIFO. -/
structure Sample where
  red : Nat
  ir : Nat
deriving DecidableEq, Repr

/-- The four out-parameters written by
`maxim_heart_rate_and_oxygen_saturation`. -/
structure EstimatorResult where
  spo2 : Int
  spo2Valid : Int
  heartRate : Int
  heartRateValid : Int
deriving DecidableEq, Repr

/-- The estimator collaborator: infrared buffer, buffer length, red buffer. -/
abbrev Estimator := List Nat → Nat → List Nat → EstimatorResult

/-- The member variables of a `PulseOximeterWrapper` object. -/
structure State where
  _irBuffer : List Nat
  _redBuffer : List Nat
  _bufferHead : Int
  _bufferReady : Bool
  _rawSpO2 : Int
  _validSpO2 : Int
  _rawHeartRate : Int
  _validHeartRate : Int
  _smoothedSpO2 : Int
  _smoothedHeartRate : Int
  _lastIR : Nat
  _lastRed : Nat
  _autoGainEnabled : Bool
  _currentLEDBrightness : Nat
  _lastGainAdjustment : Nat
  _lastCalculation : Nat
deriving DecidableEq, Repr

/-- What one call of `update()` obtains from its collaborators: the samples
waiting in the sensor FIFO (oldest first), the three readings of `millis()`
(gate test and stamp of the calculation gate, and the reading taken by
`_adjustAutoGain`), and the estimator. -/
structure Poll where
  samples : List Sample
  millisCalc : Nat
  millisStamp : Nat
  millisGain : Nat
  estimator : Estimator

/-! ## Member functions -/

/-- The constructor.  The two sample arrays are not written by the
constructor: they keep whatever the object's storage held (`irMem`,
`redMem`). -/
def construct (irMem redMem : List Nat) : State :=
  { _irBuffer := irMem
    _redBuffer := redMem
    _bufferHead := 0
    _bufferReady := false
    _rawSpO2 := -1
    _validSpO2 := 0
    _rawHeartRate := -1
    _validHeartRate := 0
    _smoothedSpO2 := -1
    _smoothedHeartRate := -1
    _lastIR := 0
    _lastRed := 0
    _autoGainEnabled := true
    _currentLEDBrightness := LED_BRIGHTNESS
    _lastGainAdjustment := 0
    _lastCalculation := 0 }

/-- `isFingerDetected()`. -/
def isFingerDetected (s : State) : Bool :=
  decide (FINGER_THRESHOLD ≤ s._lastIR)

/-- `getSpO2()`. -/
def getSpO2 (s : State) : Int :=
  if !isFingerDetected s || s._validSpO2 == 0 || decide (s._smoothedSpO2 < 0) then
    -1
  else
    s._smoothedSpO2

/-- `getHeartRate()`. -/
def getHeartRate (s : State) : Int :=
  if !isFingerDetected s || s._validHeartRate == 0 || decide (s._smoothedHeartRate < 0) then
    -1
  else
    s._smoothedHeartRate

/-- `isSpO2Valid()`. -/
def isSpO2Valid (s : State) : Bool :=
  isFingerDetected s && s._validSpO2 != 0 && decide (s._smoothedSpO2 > 0)

/-- `isHeartRateValid()`. -/
def isHeartRateValid (s : State) : Bool :=
  isFingerDetected s && s._validHeartRate != 0 && decide (s._smoothedHeartRate > 0)

/-- `getRawIR()`. -/
def getRawIR (s : State) : Nat := s._lastIR

/-- `getRawRed()`. -/
def getRawRed (s : State) : Nat := s._lastRed

/-- `setAutoGain(enabled)`. -/
def setAutoGain (enabled : Bool) (s : State) : State :=
  { s with _autoGainEnabled := enabled }

/-- `reset()`: the loop over `i < BUFFER_LENGTH` zeroes every slot of the two
arrays. -/
def reset (s : State) : State :=
  { s with
    _bufferHead := 0
    _bufferReady := false
    _smoothedSpO2 := -1
    _smoothedHeartRate := -1
    _validSpO2 := 0
    _validHeartRate := 0
    _irBuffer := List.replicate BUFFER_LENGTH 0
    _redBuffer := List.replicate BUFFER_LENGTH 0 }

/-- `_setupSensorConfiguration()`: apart from the driver calls it stores the
default brightness. -/
def _setupSensorConfiguration (s : State) : State :=
  { s with _currentLEDBrightness := LED_BRIGHTNESS }

/-- `begin()`: `sensorFound` is the result of `_sensor.begin(...)`.  Returns
the new state and the boolean result. -/
def begin (sensorFound : Bool) (s : State) : State × Bool :=
  if !sensorFound then (s, false)
  else (reset (_setupSensorConfiguration s), true)

/-- The array store `buf[i] = v`.  A store outside the array (undefined in
C++) leaves the list as it is. -/
def writeSlot (buf : List Nat) (i : Int) (v : Nat) : List Nat :=
  if 0 ≤ i then buf.set i.toNat v else buf

/-- One iteration of the `while (_sensor.available())` loop of
`_collectSensorData()`, for the sample popped from the FIFO. -/
def pushSample (s : State) (x : Sample) : State :=
  let s1 := { s with _lastRed := x.red, _lastIR := x.ir }
  let s2 := { s1 with
    _redBuffer := writeSlot s1._redBuffer s1._bufferHead x.red
    _irBuffer := writeSlot s1._irBuffer s1._bufferHead x.ir }
  let s3 := { s2 with _bufferHead := Int.tmod (s2._bufferHead + 1) BUFFER_LENGTH }
  if !s3._bufferReady && s3._bufferHead == 0 then
    { s3 with _bufferReady := true }
  else
    s3

/-- `_collectSensorData()`: drains the samples waiting in the FIFO. -/
def _collectSensorData (samples : List Sample) (s : State) : State :=
  samples.foldl pushSample s

/-- `_updateEMA(currentValue, newValue)`, in `w`-bit `int` arithmetic; the
division is C++ integer division (truncation toward zero). -/
def _updateEMA (w : Nat) (currentValue newValue : Int) : Int :=
  if currentValue < 0 then
    newValue
  else
    Int.tdiv
      (wrapInt w
        (wrapInt w ((EMA_DENOMINATOR - EMA_NUMERATOR) * currentValue)
          + wrapInt w (EMA_NUMERATOR * newValue)))
      EMA_DENOMINATOR

/-- `_calculateVitals()`.  The casts `(int)_rawSpO2` and `(int)_rawHeartRate`
are applied to values the guards bound by 100 and 240, where they are the
identity. -/
def _calculateVitals (w : Nat) (est : Estimator) (s : State) : State :=
  if !isFingerDetected s then
    { s with _validSpO2 := 0, _validHeartRate := 0 }
  else
    let r := est s._irBuffer BUFFER_LENGTH s._redBuffer
    let s1 := { s with
      _rawSpO2 := r.spo2
      _validSpO2 := r.spo2Valid
      _rawHeartRate := r.heartRate
      _validHeartRate := r.heartRateValid }
    let s2 :=
      if s1._validSpO2 ≠ 0 ∧ s1._rawSpO2 > 0 ∧ s1._rawSpO2 ≤ 100 then
        { s1 with _smoothedSpO2 := _updateEMA w s1._smoothedSpO2 s1._rawSpO2 }
      else s1
    if s2._validHeartRate ≠ 0 ∧ s2._rawHeartRate > 0 ∧ s2._rawHeartRate < 240 then
      { s2 with _smoothedHeartRate := _updateEMA w s2._smoothedHeartRate s2._rawHeartRate }
    else s2

/-- `_adjustAutoGain()`, `now` being the value `millis()` returns.  In the
increase branch `newBrightness` is a `byte`, so the sum is reduced modulo 256
before it is compared with `LED_MAX`; in the decrease branch it is an `int`. -/
def _adjustAutoGain (now : Nat) (s : State) : State :=
  if subU32 now s._lastGainAdjustment < GAIN_ADJUSTMENT_INTERVAL then
    s
  else if !isFingerDetected s then
    s
  else
    let r : State × Bool :=
      if s._lastIR < IR_TARGET_LOW ∧ s._currentLEDBrightness < LED_MAX then
        let newBrightness : Nat := (s._currentLEDBrightness + LED_STEP) % 256
        ({ s with _currentLEDBrightness :=
            if newBrightness > LED_MAX then LED_MAX else newBrightness }, true)
      else if s._lastIR > IR_TARGET_HIGH ∧ s._currentLEDBrightness > LED_MIN then
        let newBrightness : Int := (s._currentLEDBrightness : Int) - (LED_STEP : Int)
        ({ s with _currentLEDBrightness :=
            if newBrightness < (LED_MIN : Int) then LED_MIN else toByte newBrightness }, true)
      else
        (s, false)
    if r.2 then
      { r.1 with _lastGainAdjustment := now }
    else
      r.1

/-- `update()`. -/
def update (w : Nat) (p : Poll) (s : State) : State :=
  let s1 := _collectSensorData p.samples s
  let s2 :=
    if s1._bufferReady = true ∧
        subU32 p.millisCalc s1._lastCalculation ≥ CALCULATION_INTERVAL then
      { _calculateVitals w p.estimator s1 with _lastCalculation := p.millisStamp }
    else s1
  if s2._autoGainEnabled then _adjustAutoGain p.millisGain s2 else s2

/-- The part of `update()` that precedes the auto-gain step. -/
def beforeGain (w : Nat) (p : Poll) (s : State) : State :=
  let s1 := _collectSensorData p.samples s
  if s1._bufferReady = true ∧
      subU32 p.millisCalc s1._lastCalculation ≥ CALCULATION_INTERVAL then
    { _calculateVitals w p.estimator s1 with _lastCalculation := p.millisStamp }
  else s1

/-! ## Sequences of calls -/

/-- A call of a public member function that changes the object. -/
inductive Call where
  | update (p : Poll)
  | reset
  | setAutoGain (enabled : Bool)
  | begin (sensorFound : Bool)

/-- The state after one call. -/
def Call.apply (w : Nat) (s : State) : Call → State
  | .update p => PulseOximeterWrapper.update w p s
  | .reset => PulseOximeterWrapper.reset s
  | .setAutoGain enabled => PulseOximeterWrapper.setAutoGain enabled s
  | .begin sensorFound => (PulseOximeterWrapper.begin sensorFound s).1

/-- The state after a sequence of calls, first call first. -/
def run (w : Nat) (s : State) (calls : List Call) : State :=
  calls.foldl (Call.apply w) s

/-- A state the object can be in: a sequence of calls applied to a newly
constructed object. -/
def Reachable (w : Nat) (s : State) : Prop :=
  ∃ irMem redMem calls, s = run w (construct irMem redMem) calls

/-- The number of samples a call pushes into the buffer. -/
def Call.pushes : Call → Nat
  | .update p => p.samples.length
  | _ => 0

/-- The call clears the buffer: `reset()`, or a `begin()` that finds the
sensor. -/
def Call.restarts : Call → Bool
  | .reset => true
  | .begin sensorFound => sensorFound
  | _ => false

/-- The number of samples pushed by a sequence of calls. -/
def pushCount (calls : List Call) : Nat :=
  (calls.map Call.pushes).sum

/-! ## Example states and polls -/

/-- An estimator that reports saturation 98 and heart rate 72, both valid. -/
def estimator9872 : Estimator := fun _ _ _ => ⟨98, 1, 72, 1⟩

/-- The poll of the end-to-end scenario: 100 samples (infrared 30000, red
20000) waiting, clock at 5000 ms. -/
def fillPoll : Poll :=
  { samples := List.replicate 100 ⟨20000, 30000⟩
    millisCalc := 5000
    millisStamp := 5000
    millisGain := 5000
    estimator := estimator9872 }

/-- A poll 100 ms later in which one sample with infrared 9000 (no finger)
is waiting. -/
def fingerLiftedPoll : Poll :=
  { samples := [⟨7000, 9000⟩]
    millisCalc := 5100
    millisStamp := 5100
    millisGain := 5100
    estimator := estimator9872 }

/-- The state after the finger is lifted: filled and calculated once, then
one sample below the presence threshold, without a reset. -/
def fingerLiftedState : State :=
  run 16 (construct [] []) [.begin true, .update fillPoll, .update fingerLiftedPoll]

/-- A poll at 1000 ms with one weak sample (infrared 20000: finger present,
below the target band). -/
def weakSignalPoll : Poll :=
  { samples := [⟨15000, 20000⟩]
    millisCalc := 1000
    millisStamp := 1000
    millisGain := 1000
    estimator := estimator9872 }

/-- The state of a new object after one poll with a weak signal. -/
def weakSignalState : State :=
  run 16 (construct [] []) [.update weakSignalPoll]

/-- A state with auto-gain enabled, a strong signal (infrared 95000), the gain
gate last fired at 0 and brightness 22. -/
def brightness22State : State :=
  { construct [] [] with
    _lastIR := 95000
    _currentLEDBrightness := 22 }

/-- A poll at 5000 ms with no sample waiting. -/
def idlePoll : Poll :=
  { samples := []
    millisCalc := 5000
    millisStamp := 5000
    millisGain := 5000
    estimator := estimator9872 }

/-- A state with the finger present and the signal in band (infrared 50000),
auto-gain enabled, the gain gate last fired at 0. -/
def inBandState : State :=
  { construct [] [] with _lastIR := 50000 }

/-- The gain gate test of `_adjustAutoGain()` passes at poll `p` in state
`s`: `millis() - _lastGainAdjustment >= GAIN_ADJUSTMENT_INTERVAL`. -/
def gainDue (p : Poll) (s : State) : Bool :=
  decide (GAIN_ADJUSTMENT_INTERVAL ≤ subU32 p.millisGain s._lastGainAdjustment)

/-- Once the samples of poll `p` are drained, the finger is present and the
latest infrared is below the target band. -/
def weakAt (p : Poll) (s : State) : Bool :=
  decide (FINGER_THRESHOLD ≤ (_collectSensorData p.samples s)._lastIR ∧
    (_collectSensorData p.samples s)._lastIR < IR_TARGET_LOW)

/-- The weak-signal condition holds at every poll of a sequence of `update()`
calls started in `s`. -/
def allWeak (w : Nat) (s : State) : List Poll → Bool
  | [] => true
  | p :: ps => weakAt p s && allWeak w (update w p s) ps

/-- The clock readings (`millis()` in `_adjustAutoGain()`) of the polls of a
sequence of `update()` calls that change the brightness, in order. -/
def changeTimes (w : Nat) (s : State) : List Poll → List Nat
  | [] => []
  | p :: ps =>
    (if (update w p s)._currentLEDBrightness ≠ s._currentLEDBrightness then [p.millisGain]
      else []) ++ changeTimes w (update w p s) ps

/-- A poll at clock reading `t` with one weak sample waiting (infrared 20000). -/
def weakPollAt (t : Nat) : Poll :=
  { samples := [⟨15000, 20000⟩]
    millisCalc := t
    millisStamp := t
    millisGain := t
    estimator := estimator9872 }

/-- Eight weak-signal polls, one every 800 ms from 800 ms on. -/
def weakPolls : List Poll :=
  (List.range 8).map fun i => weakPollAt (800 * (i + 1))

/-- An estimator that reports out-of-range values with both flags set:
saturation 150 and heart rate 250. -/
def estimatorOutOfRange : Estimator := fun _ _ _ => ⟨150, 1, 250, 1⟩

/-- A poll at 6000 ms, one sample with the finger present (infrared 30000),
in which the estimator reports out-of-range values flagged valid. -/
def outOfRangePoll : Poll :=
  { samples := [⟨20000, 30000⟩]
    millisCalc := 6000
    millisStamp := 6000
    millisGain := 6000
    estimator := estimatorOutOfRange }

/-- The state after a first calculation stored 98 / 72 and a second
calculation cycle, one second later, received out-of-range estimator output
flagged valid. -/
def staleReadingState : State :=
  run 16 (construct [] []) [.begin true, .update fillPoll, .update outOfRangePoll]

/-- The contents of the rolling buffer after the samples `xs` have been pushed
since the last reset: the cursor is `xs.length mod 100`, both arrays have 100
slots, each of the last 100 pushes `j` sits in slot `j mod 100`, and the slots
not yet written hold 0. -/
def BufferHolds (s : State) (xs : List Sample) : Prop :=
  s._bufferHead = ((xs.length % 100 : Nat) : Int) ∧
  s._irBuffer.length = 100 ∧ s._redBuffer.length = 100 ∧
  (∀ j, j < xs.length → xs.length ≤ j + 100 →
    s._irBuffer[j % 100]? = (xs[j]?).map Sample.ir ∧
    s._redBuffer[j % 100]? = (xs[j]?).map Sample.red) ∧
  (∀ i, i < 100 → xs.length ≤ i →
    s._irBuffer[i]? = some 0 ∧ s._redBuffer[i]? = some 0)

/-- The samples pushed by a sequence of calls, oldest first. -/
def pushedSamples : List Call → List Sample
  | [] => []
  | .update p :: cs => p.samples ++ pushedSamples cs
  | _ :: cs => pushedSamples cs

/-- The smoothed value after `n` calculation cycles that all receive the raw
value `v`, starting from the smoothed value `s`: `_updateEMA(., v)` applied
`n` times. -/
def emaIterate (w : Nat) (v : Int) : Nat → Int → Int
  | 0, s => s
  | n + 1, s => emaIterate w v n (_updateEMA w s v)

/-- The state of a new object after six weak-signal polls 800 ms apart:
brightness 250. -/
def brightness250State : State :=
  run 16 (construct [] []) ((List.range 6).map fun i => Call.update (weakPollAt (800 * (i + 1))))

/-- The state of a new object after one weak-signal poll at clock reading
4294967000, 296 ms before the 32-bit counter overflows: the gain gate fired
then and the brightness is 225. -/
def preOverflowState : State :=
  run 16 (construct [] []) [.update (weakPollAt 4294967000)]

/-! ## Frame lemmas -/

theorem pushSample_frame (s : State) (x : Sample) :
    (pushSample s x)._currentLEDBrightness = s._currentLEDBrightness ∧
    (pushSample s x)._autoGainEnabled = s._autoGainEnabled ∧
    (pushSample s x)._lastGainAdjustment = s._lastGainAdjustment ∧
    (pushSample s x)._lastCalculation = s._lastCalculation ∧
    (pushSample s x)._smoothedSpO2 = s._smoothedSpO2 ∧
    (pushSample s x)._smoothedHeartRate = s._smoothedHeartRate ∧
    (pushSample s x)._validSpO2 = s._validSpO2 ∧
    (pushSample s x)._validHeartRate = s._validHeartRate := by
  unfold pushSample
  dsimp only
  split <;> simp

theorem collect_frame (xs : List Sample) (s : State) :
    (_collectSensorData xs s)._currentLEDBrightness = s._currentLEDBrightness ∧
    (_collectSensorData xs s)._autoGainEnabled = s._autoGainEnabled ∧
    (_collectSensorData xs s)._lastGainAdjustment = s._lastGainAdjustment ∧
    (_collectSensorData xs s)._lastCalculation = s._lastCalculation ∧
    (_collectSensorData xs s)._smoothedSpO2 = s._smoothedSpO2 ∧
    (_collectSensorData xs s)._smoothedHeartRate = s._smoothedHeartRate ∧
    (_collectSensorData xs s)._validSpO2 = s._validSpO2 ∧
    (_collectSensorData xs s)._validHeartRate = s._validHeartRate := by
  induction xs generalizing s with
  | nil => simp [_collectSensorData]
  | cons x xs ih =>
    have h := pushSample_frame s x
    have h2 := ih (pushSample s x)
    simp only [_collectSensorData, List.foldl_cons] at h2 ⊢
    obtain ⟨a1, a2, a3, a4, a5, a6, a7, a8⟩ := h
    obtain ⟨b1, b2, b3, b4, b5, b6, b7, b8⟩ := h2
    exact ⟨b1.trans a1, b2.trans a2, b3.trans a3, b4.trans a4, b5.trans a5,
      b6.trans a6, b7.trans a7, b8.trans a8⟩

theorem calculateVitals_frame (w : Nat) (est : Estimator) (s : State) :
    (_calculateVitals w est s)._currentLEDBrightness = s._currentLEDBrightness ∧
    (_calculateVitals w est s)._autoGainEnabled = s._autoGainEnabled ∧
    (_calculateVitals w est s)._lastGainAdjustment = s._lastGainAdjustment ∧
    (_calculateVitals w est s)._lastIR = s._lastIR ∧
    (_calculateVitals w est s)._bufferReady = s._bufferReady ∧
    (_calculateVitals w est s)._bufferHead = s._bufferHead ∧
    (_calculateVitals w est s)._irBuffer = s._irBuffer ∧
    (_calculateVitals w est s)._redBuffer = s._redBuffer := by
  unfold _calculateVitals
  dsimp only
  split_ifs <;> simp

theorem update_eq (w : Nat) (p : Poll) (s : State) :
    update w p s =
      if (beforeGain w p s)._autoGainEnabled then
        _adjustAutoGain p.millisGain (beforeGain w p s)
      else beforeGain w p s := rfl

theorem beforeGain_frame (w : Nat) (p : Poll) (s : State) :
    (beforeGain w p s)._currentLEDBrightness = s._currentLEDBrightness ∧
    (beforeGain w p s)._autoGainEnabled = s._autoGainEnabled ∧
    (beforeGain w p s)._lastGainAdjustment = s._lastGainAdjustment ∧
    (beforeGain w p s)._lastIR = (_collectSensorData p.samples s)._lastIR ∧
    (beforeGain w p s)._bufferReady = (_collectSensorData p.samples s)._bufferReady ∧
    (beforeGain w p s)._bufferHead = (_collectSensorData p.samples s)._bufferHead := by
  have hc := collect_frame p.samples s
  have hv := calculateVitals_frame w p.estimator (_collectSensorData p.samples s)
  unfold beforeGain
  dsimp only
  split_ifs
  · simp only [hv, hc, and_self]
  · simp only [hc, and_self]

/-! ## Presence gate and accessors -/

/-- C1: in every state whose latest infrared sample is below the presence
threshold 15000, `getSpO2()` and `getHeartRate()` return -1 and both validity
queries are false, whatever the smoothed values and validity flags are. -/
theorem absent_finger_gates_accessors (s : State) (h : s._lastIR < FINGER_THRESHOLD) :
    getSpO2 s = -1 ∧ getHeartRate s = -1 ∧
    isSpO2Valid s = false ∧ isHeartRateValid s = false := by
  have hf : isFingerDetected s = false := by
    simp only [isFingerDetected, decide_eq_false_iff_not, not_le]
    exact h
  simp [getSpO2, getHeartRate, isSpO2Valid, isHeartRateValid, hf]

set_option maxRecDepth 100000 in
/-- Witness for C1: after a calculation stored saturation 98 and heart rate 72
with both flags set, one sample with infrared 9000 arrives; the stored values
stay, and the accessors report -1 / false. -/
theorem absent_finger_gates_accessors_witness :
    fingerLiftedState._smoothedSpO2 = 98 ∧ fingerLiftedState._validSpO2 = 1 ∧
    fingerLiftedState._smoothedHeartRate = 72 ∧ fingerLiftedState._validHeartRate = 1 ∧
    fingerLiftedState._lastIR < FINGER_THRESHOLD ∧
    (getSpO2 fingerLiftedState = -1 ∧ getHeartRate fingerLiftedState = -1 ∧
      isSpO2Valid fingerLiftedState = false ∧ isHeartRateValid fingerLiftedState = false) :=
  ⟨by decide, by decide, by decide, by decide, by decide,
    absent_finger_gates_accessors fingerLiftedState (by decide)⟩

/-! ## Brightness bounds -/

theorem adjustAutoGain_brightness (now : Nat) (s : State) :
    (_adjustAutoGain now s)._currentLEDBrightness =
      if subU32 now s._lastGainAdjustment < GAIN_ADJUSTMENT_INTERVAL then
        s._currentLEDBrightness
      else if isFingerDetected s = false then s._currentLEDBrightness
      else if s._lastIR < IR_TARGET_LOW ∧ s._currentLEDBrightness < LED_MAX then
        (if (s._currentLEDBrightness + LED_STEP) % 256 > LED_MAX then LED_MAX
          else (s._currentLEDBrightness + LED_STEP) % 256)
      else if s._lastIR > IR_TARGET_HIGH ∧ s._currentLEDBrightness > LED_MIN then
        (if (s._currentLEDBrightness : Int) - (LED_STEP : Int) < (LED_MIN : Int) then LED_MIN
          else toByte ((s._currentLEDBrightness : Int) - (LED_STEP : Int)))
      else s._currentLEDBrightness := by
  unfold _adjustAutoGain
  by_cases h1 : subU32 now s._lastGainAdjustment < GAIN_ADJUSTMENT_INTERVAL
  · simp only [h1, if_true]
  · by_cases h2 : isFingerDetected s = false
    · simp [h1, h2]
    · by_cases h3 : s._lastIR < IR_TARGET_LOW ∧ s._currentLEDBrightness < LED_MAX
      · simp [h1, h2, h3]
      · by_cases h4 : s._lastIR > IR_TARGET_HIGH ∧ s._currentLEDBrightness > LED_MIN
        · simp [h1, h2, h3, h4]
        · simp [h1, h2, h3, h4]

theorem adjustAutoGain_stamp (now : Nat) (s : State) :
    (_adjustAutoGain now s)._lastGainAdjustment =
      if subU32 now s._lastGainAdjustment < GAIN_ADJUSTMENT_INTERVAL then
        s._lastGainAdjustment
      else if isFingerDetected s = false then s._lastGainAdjustment
      else if s._lastIR < IR_TARGET_LOW ∧ s._currentLEDBrightness < LED_MAX then now
      else if s._lastIR > IR_TARGET_HIGH ∧ s._currentLEDBrightness > LED_MIN then now
      else s._lastGainAdjustment := by
  unfold _adjustAutoGain
  by_cases h1 : subU32 now s._lastGainAdjustment < GAIN_ADJUSTMENT_INTERVAL
  · simp only [h1, if_true]
  · by_cases h2 : isFingerDetected s = false
    · simp [h1, h2]
    · by_cases h3 : s._lastIR < IR_TARGET_LOW ∧ s._currentLEDBrightness < LED_MAX
      · simp [h1, h2, h3]
      · by_cases h4 : s._lastIR > IR_TARGET_HIGH ∧ s._currentLEDBrightness > LED_MIN
        · simp [h1, h2, h3, h4]
        · simp [h1, h2, h3, h4]

theorem adjustAutoGain_keeps_bounds (now : Nat) (s : State)
    (h : LED_MIN ≤ s._currentLEDBrightness ∧ s._currentLEDBrightness ≤ LED_MAX ∧
      s._currentLEDBrightness % 5 = 0) :
    LED_MIN ≤ (_adjustAutoGain now s)._currentLEDBrightness ∧
    (_adjustAutoGain now s)._currentLEDBrightness ≤ LED_MAX ∧
    (_adjustAutoGain now s)._currentLEDBrightness % 5 = 0 := by
  obtain ⟨h1, h2, h3⟩ := h
  rw [adjustAutoGain_brightness]
  simp only [LED_MIN, LED_MAX, LED_STEP, toByte] at *
  have up : s._currentLEDBrightness < 255 →
      (s._currentLEDBrightness + 5) % 256 = s._currentLEDBrightness + 5 :=
    fun hlt => Nat.mod_eq_of_lt (by omega)
  have down : ((s._currentLEDBrightness : Int) - ((5 : Nat) : Int)) % 256 =
      (s._currentLEDBrightness : Int) - 5 :=
    Int.emod_eq_of_lt (by omega) (by omega)
  split_ifs with g1 g2 g3 g4 g5 g6
  · omega
  · omega
  · rw [up g3.2] at g4; omega
  · rw [up g3.2]; omega
  · omega
  · rw [down]; omega
  · omega

theorem update_keeps_bounds (w : Nat) (p : Poll) (s : State)
    (h : LED_MIN ≤ s._currentLEDBrightness ∧ s._currentLEDBrightness ≤ LED_MAX ∧
      s._currentLEDBrightness % 5 = 0) :
    LED_MIN ≤ (update w p s)._currentLEDBrightness ∧
    (update w p s)._currentLEDBrightness ≤ LED_MAX ∧
    (update w p s)._currentLEDBrightness % 5 = 0 := by
  have hb := (beforeGain_frame w p s).1
  rw [update_eq]
  split_ifs
  · exact adjustAutoGain_keeps_bounds _ _ (by rw [hb]; exact h)
  · rw [hb]; exact h

theorem apply_keeps_bounds (w : Nat) (c : Call) (s : State)
    (h : LED_MIN ≤ s._currentLEDBrightness ∧ s._currentLEDBrightness ≤ LED_MAX ∧
      s._currentLEDBrightness % 5 = 0) :
    LED_MIN ≤ (c.apply w s)._currentLEDBrightness ∧
    (c.apply w s)._currentLEDBrightness ≤ LED_MAX ∧
    (c.apply w s)._currentLEDBrightness % 5 = 0 := by
  cases c with
  | update p => exact update_keeps_bounds w p s h
  | reset => exact h
  | setAutoGain enabled => exact h
  | begin sensorFound =>
    cases sensorFound
    · exact h
    · simp [Call.apply, begin, reset, _setupSensorConfiguration, LED_BRIGHTNESS, LED_MIN,
        LED_MAX]

theorem run_keeps_bounds (w : Nat) (calls : List Call) (s : State)
    (h : LED_MIN ≤ s._currentLEDBrightness ∧ s._currentLEDBrightness ≤ LED_MAX ∧
      s._currentLEDBrightness % 5 = 0) :
    LED_MIN ≤ (run w s calls)._currentLEDBrightness ∧
    (run w s calls)._currentLEDBrightness ≤ LED_MAX ∧
    (run w s calls)._currentLEDBrightness % 5 = 0 := by
  induction calls generalizing s with
  | nil => exact h
  | cons c cs ih => exact ih (c.apply w s) (apply_keeps_bounds w c s h)

/-- C3: in every state reachable from a newly constructed object by `update()`,
`reset()`, `setAutoGain()` (and `begin()`) calls, with any samples, clock
readings and estimator, the brightness is within [20, 255]; and whenever the
increase branch can be taken (brightness below 255) the sum brightness + 5
fits in a byte, so the 8-bit addition does not wrap. -/
theorem brightness_within_bounds (w : Nat) (s : State) (h : Reachable w s) :
    LED_MIN ≤ s._currentLEDBrightness ∧ s._currentLEDBrightness ≤ LED_MAX ∧
    (s._currentLEDBrightness < LED_MAX →
      s._currentLEDBrightness + LED_STEP ≤ 255 ∧
      (s._currentLEDBrightness + LED_STEP) % 256 = s._currentLEDBrightness + LED_STEP) := by
  obtain ⟨irMem, redMem, calls, rfl⟩ := h
  have h0 := run_keeps_bounds w calls (construct irMem redMem)
    (by simp [construct, LED_BRIGHTNESS, LED_MIN, LED_MAX])
  obtain ⟨h1, h2, h3⟩ := h0
  refine ⟨h1, h2, ?_⟩
  simp only [LED_MIN, LED_MAX, LED_STEP] at *
  omega

/-- Witness for C3: after one poll with a weak signal the brightness is 225. -/
theorem brightness_within_bounds_witness :
    Reachable 16 weakSignalState ∧ weakSignalState._currentLEDBrightness = 225 ∧
    (LED_MIN ≤ weakSignalState._currentLEDBrightness ∧
      weakSignalState._currentLEDBrightness ≤ LED_MAX ∧
      (weakSignalState._currentLEDBrightness < LED_MAX →
        weakSignalState._currentLEDBrightness + LED_STEP ≤ 255 ∧
        (weakSignalState._currentLEDBrightness + LED_STEP) % 256 =
          weakSignalState._currentLEDBrightness + LED_STEP)) :=
  ⟨⟨[], [], _, rfl⟩, by decide,
    brightness_within_bounds 16 weakSignalState ⟨[], [], _, rfl⟩⟩

/-! ## Buffer readiness -/

theorem adjustAutoGain_frame (now : Nat) (s : State) :
    (_adjustAutoGain now s)._bufferHead = s._bufferHead ∧
    (_adjustAutoGain now s)._bufferReady = s._bufferReady ∧
    (_adjustAutoGain now s)._irBuffer = s._irBuffer ∧
    (_adjustAutoGain now s)._redBuffer = s._redBuffer ∧
    (_adjustAutoGain now s)._lastIR = s._lastIR ∧
    (_adjustAutoGain now s)._smoothedSpO2 = s._smoothedSpO2 ∧
    (_adjustAutoGain now s)._smoothedHeartRate = s._smoothedHeartRate ∧
    (_adjustAutoGain now s)._validSpO2 = s._validSpO2 ∧
    (_adjustAutoGain now s)._validHeartRate = s._validHeartRate ∧
    (_adjustAutoGain now s)._lastCalculation = s._lastCalculation ∧
    (_adjustAutoGain now s)._autoGainEnabled = s._autoGainEnabled := by
  unfold _adjustAutoGain
  dsimp only
  split_ifs <;> simp

theorem pushSample_cursor (s : State) (x : Sample) :
    (pushSample s x)._bufferHead = Int.tmod (s._bufferHead + 1) BUFFER_LENGTH ∧
    (pushSample s x)._bufferReady =
      (s._bufferReady || decide (Int.tmod (s._bufferHead + 1) BUFFER_LENGTH = 0)) := by
  unfold pushSample
  dsimp only
  cases hb : s._bufferReady <;>
    by_cases hz : Int.tmod (s._bufferHead + 1) (BUFFER_LENGTH : Int) = 0 <;>
    simp [hb, hz]

theorem pushSample_count (s : State) (x : Sample) (k : Nat)
    (hh : s._bufferHead = ((k % 100 : Nat) : Int)) (hr : s._bufferReady = decide (100 ≤ k)) :
    (pushSample s x)._bufferHead = (((k + 1) % 100 : Nat) : Int) ∧
    (pushSample s x)._bufferReady = decide (100 ≤ k + 1) := by
  obtain ⟨c1, c2⟩ := pushSample_cursor s x
  have ht : Int.tmod (s._bufferHead + 1) BUFFER_LENGTH = (((k + 1) % 100 : Nat) : Int) := by
    rw [hh, BUFFER_LENGTH, Int.tmod_eq_emod (by omega) (by omega)]
    omega
  rw [c1, c2, ht, hr]
  refine ⟨rfl, ?_⟩
  rw [Bool.eq_iff_iff]
  simp only [Bool.or_eq_true, decide_eq_true_eq]
  omega

theorem collect_count (xs : List Sample) (s : State) (k : Nat)
    (hh : s._bufferHead = ((k % 100 : Nat) : Int)) (hr : s._bufferReady = decide (100 ≤ k)) :
    (_collectSensorData xs s)._bufferHead = (((k + xs.length) % 100 : Nat) : Int) ∧
    (_collectSensorData xs s)._bufferReady = decide (100 ≤ k + xs.length) := by
  induction xs generalizing s k with
  | nil => exact ⟨hh, hr⟩
  | cons x xs ih =>
    obtain ⟨p1, p2⟩ := pushSample_count s x k hh hr
    have h := ih (pushSample s x) (k + 1) p1 p2
    simp only [_collectSensorData, List.foldl_cons, List.length_cons] at h ⊢
    have e : k + (xs.length + 1) = k + 1 + xs.length := by omega
    simp only [e]
    exact h

theorem update_count (w : Nat) (p : Poll) (s : State) (k : Nat)
    (hh : s._bufferHead = ((k % 100 : Nat) : Int)) (hr : s._bufferReady = decide (100 ≤ k)) :
    (update w p s)._bufferHead = (((k + p.samples.length) % 100 : Nat) : Int) ∧
    (update w p s)._bufferReady = decide (100 ≤ k + p.samples.length) := by
  obtain ⟨c1, c2⟩ := collect_count p.samples s k hh hr
  obtain ⟨-, -, -, -, b5, b6⟩ := beforeGain_frame w p s
  obtain ⟨a1, a2, -⟩ := adjustAutoGain_frame p.millisGain (beforeGain w p s)
  rw [update_eq]
  split_ifs
  · rw [a1, a2, b5, b6]; exact ⟨c1, c2⟩
  · rw [b5, b6]; exact ⟨c1, c2⟩

theorem run_count (w : Nat) (calls : List Call) (s : State) (k : Nat)
    (hno : ∀ c ∈ calls, c.restarts = false)
    (hh : s._bufferHead = ((k % 100 : Nat) : Int)) (hr : s._bufferReady = decide (100 ≤ k)) :
    (run w s calls)._bufferHead = (((k + pushCount calls) % 100 : Nat) : Int) ∧
    (run w s calls)._bufferReady = decide (100 ≤ k + pushCount calls) := by
  induction calls generalizing s k with
  | nil => exact ⟨hh, hr⟩
  | cons c cs ih =>
    have hc : c.restarts = false := hno c (List.mem_cons_self _ _)
    have hcs : ∀ d ∈ cs, d.restarts = false := fun d hd => hno d (List.mem_cons_of_mem _ hd)
    have step : (c.apply w s)._bufferHead = (((k + c.pushes) % 100 : Nat) : Int) ∧
        (c.apply w s)._bufferReady = decide (100 ≤ k + c.pushes) := by
      cases c with
      | update p => exact update_count w p s k hh hr
      | reset => simp [Call.restarts] at hc
      | setAutoGain enabled => exact ⟨hh, hr⟩
      | begin sensorFound =>
        simp only [Call.restarts] at hc
        subst hc
        exact ⟨hh, hr⟩
    have h := ih (c.apply w s) (k + c.pushes) hcs step.1 step.2
    have e : k + pushCount (c :: cs) = k + c.pushes + pushCount cs := by
      simp only [pushCount, List.map_cons, List.sum_cons]; omega
    simp only [e]
    exact h

/-- C4: after construction or after `reset()`, along any sequence of calls that
contains no further `reset()` (nor a successful `begin()`), the buffer-ready
flag is true exactly when at least 100 samples have been pushed: false after
k < 100 pushes, true at the 100th push and after every later push.  The same
holds for the samples drained by one `_collectSensorData()`. -/
theorem ready_after_hundred_pushes (w : Nat) (s0 : State) (irMem redMem : List Nat)
    (calls : List Call) (xs : List Sample) (hno : ∀ c ∈ calls, c.restarts = false) :
    (run w (reset s0) calls)._bufferReady = decide (100 ≤ pushCount calls) ∧
    (run w (construct irMem redMem) calls)._bufferReady = decide (100 ≤ pushCount calls) ∧
    (_collectSensorData xs (reset s0))._bufferReady = decide (100 ≤ xs.length) ∧
    (_collectSensorData xs (construct irMem redMem))._bufferReady =
      decide (100 ≤ xs.length) := by
  have r1 := (run_count w calls (reset s0) 0 hno rfl rfl).2
  have r2 := (run_count w calls (construct irMem redMem) 0 hno rfl rfl).2
  have r3 := (collect_count xs (reset s0) 0 rfl rfl).2
  have r4 := (collect_count xs (construct irMem redMem) 0 rfl rfl).2
  simp only [Nat.zero_add] at r1 r2 r3 r4
  exact ⟨r1, r2, r3, r4⟩

/-- Witness for C4: two polls that push 1 + 100 samples after a reset. -/
theorem ready_after_hundred_pushes_witness :
    pushCount [Call.update weakSignalPoll, Call.setAutoGain false, Call.update fillPoll] = 101 ∧
    (run 16 (reset weakSignalState)
        [Call.update weakSignalPoll, Call.setAutoGain false, Call.update fillPoll])._bufferReady =
      decide (100 ≤
        pushCount [Call.update weakSignalPoll, Call.setAutoGain false, Call.update fillPoll]) :=
  ⟨by decide,
    (ready_after_hundred_pushes 16 weakSignalState [] []
      [Call.update weakSignalPoll, Call.setAutoGain false, Call.update fillPoll] []
      (by simp [Call.restarts])).1⟩

/-! ## The smoothing filter -/

theorem wrapInt_of_fits (w : Nat) (hw : 1 ≤ w) (x : Int) (h : fitsInt w x) :
    wrapInt w x = x := by
  obtain ⟨h1, h2⟩ := h
  have hM : (2 : Int) ^ w = 2 * 2 ^ (w - 1) := by
    obtain ⟨v, rfl⟩ : ∃ v, w = v + 1 := ⟨w - 1, by omega⟩
    simp only [Nat.add_sub_cancel, pow_succ]
    ring
  unfold wrapInt
  rw [Int.emod_eq_of_lt (by omega) (by omega)]
  omega

theorem wrapInt_add_wrapInt (w : Nat) (a b : Int) :
    wrapInt w (wrapInt w a + wrapInt w b) = wrapInt w (a + b) := by
  unfold wrapInt
  have e : (a + 2 ^ (w - 1)) % 2 ^ w - 2 ^ (w - 1) + ((b + 2 ^ (w - 1)) % 2 ^ w - 2 ^ (w - 1))
      + 2 ^ (w - 1) =
      (a + b + 2 ^ (w - 1)) +
        (-((a + 2 ^ (w - 1)) / 2 ^ w) - (b + 2 ^ (w - 1)) / 2 ^ w) * 2 ^ w := by
    rw [Int.emod_def, Int.emod_def]
    ring
  rw [e, Int.add_mul_emod_self]

theorem pow_ge_of_sixteen (w : Nat) (hw : 16 ≤ w) : (32768 : Int) ≤ 2 ^ (w - 1) := by
  have h : (2 : Int) ^ 15 ≤ 2 ^ (w - 1) :=
    pow_le_pow_right₀ (by norm_num) (by omega)
  norm_num at h
  exact h

theorem updateEMA_of_fits (w : Nat) (hw : 1 ≤ w) (previous raw : Int) (hp : 0 ≤ previous)
    (hfit : fitsInt w (7 * previous + 3 * raw)) :
    _updateEMA w previous raw = Int.tdiv (7 * previous + 3 * raw) 10 := by
  unfold _updateEMA
  rw [if_neg (by omega), wrapInt_add_wrapInt]
  simp only [EMA_DENOMINATOR, EMA_NUMERATOR]
  have e : ((10 : Int) - 3) * previous + 3 * raw = 7 * previous + 3 * raw := by ring
  rw [e, wrapInt_of_fits w hw _ hfit]

/-- C5: `_updateEMA(previous, raw)` is `raw` for every negative `previous`
(bootstrap), and for `previous >= 0`, whenever 7*previous + 3*raw fits in
`int`, it is that sum divided by 10 with the quotient truncated toward zero
(the floor quotient for a sum >= 0, minus the floor quotient of the negated
sum otherwise).  In particular update(update(-1,100),100) = 100 and
update(update(-1,100),50) = 85, not 50.  `w >= 16` is the width of `int`. -/
theorem updateEMA_bootstrap_and_weighted (w : Nat) (hw : 16 ≤ w) (previous raw : Int) :
    (previous < 0 → _updateEMA w previous raw = raw) ∧
    (0 ≤ previous → fitsInt w (7 * previous + 3 * raw) →
      _updateEMA w previous raw = Int.tdiv (7 * previous + 3 * raw) 10 ∧
      (0 ≤ 7 * previous + 3 * raw →
        _updateEMA w previous raw = (7 * previous + 3 * raw) / 10) ∧
      (7 * previous + 3 * raw < 0 →
        _updateEMA w previous raw = -((-(7 * previous + 3 * raw)) / 10))) ∧
    _updateEMA w (-1) raw = raw ∧
    _updateEMA w (_updateEMA w (-1) 100) 100 = 100 ∧
    _updateEMA w (_updateEMA w (-1) 100) 50 = 85 ∧
    _updateEMA w (_updateEMA w (-1) 100) 50 ≠ 50 := by
  have hw1 : 1 ≤ w := by omega
  have hpow := pow_ge_of_sixteen w hw
  have boot : ∀ v : Int, _updateEMA w (-1) v = v := fun v => by
    unfold _updateEMA; rw [if_pos (by omega)]
  have e100 : _updateEMA w 100 100 = 100 := by
    rw [updateEMA_of_fits w hw1 100 100 (by omega) ⟨by omega, by omega⟩]; decide
  have e50 : _updateEMA w 100 50 = 85 := by
    rw [updateEMA_of_fits w hw1 100 50 (by omega) ⟨by omega, by omega⟩]; decide
  refine ⟨?_, ?_, boot raw, ?_, ?_, ?_⟩
  · intro h
    unfold _updateEMA; rw [if_pos h]
  · intro hp hfit
    have hq := updateEMA_of_fits w hw1 previous raw hp hfit
    refine ⟨hq, ?_, ?_⟩
    · intro hs
      rw [hq, Int.tdiv_eq_ediv hs (by omega)]
    · intro hs
      rw [hq]
      have hn : 7 * previous + 3 * raw = -(-(7 * previous + 3 * raw)) := by ring
      rw [hn, Int.neg_tdiv, Int.tdiv_eq_ediv (by omega) (by omega)]
      simp
  · rw [boot, e100]
  · rw [boot, e50]
  · rw [boot, e50]; decide

/-- Witness for C5: 16-bit `int`, previous 98, raw 95: (686 + 285) / 10 = 97. -/
theorem updateEMA_bootstrap_and_weighted_witness :
    (16 ≤ 16) ∧ (0 : Int) ≤ 98 ∧ fitsInt 16 (7 * 98 + 3 * 95) ∧
    _updateEMA 16 98 95 = 97 ∧ _updateEMA 16 0 (-1) = 0 ∧
    _updateEMA 16 98 95 = Int.tdiv (7 * 98 + 3 * 95) 10 :=
  ⟨by decide, by decide, by decide, by decide, by decide,
    ((updateEMA_bootstrap_and_weighted 16 (by decide) 98 95).2.1 (by decide) (by decide)).1⟩

/-! ## Reset -/

/-- C6: `reset()` leaves the brightness and the auto-gain flag unchanged,
zeroes both sample sequences and the write cursor, clears readiness, sets both
smoothed values to -1 and clears both validity flags; so right after it
`getSpO2()` and `getHeartRate()` return -1, and along any later calls without
another restart the buffer is ready exactly once 100 fresh samples have been
pushed. -/
theorem reset_clears_measurement_keeps_gain (w : Nat) (s : State) (calls : List Call)
    (hno : ∀ c ∈ calls, c.restarts = false) :
    (reset s)._currentLEDBrightness = s._currentLEDBrightness ∧
    (reset s)._autoGainEnabled = s._autoGainEnabled ∧
    (reset s)._irBuffer = List.replicate 100 0 ∧
    (reset s)._redBuffer = List.replicate 100 0 ∧
    (reset s)._bufferHead = 0 ∧
    (reset s)._bufferReady = false ∧
    (reset s)._smoothedSpO2 = -1 ∧
    (reset s)._smoothedHeartRate = -1 ∧
    (reset s)._validSpO2 = 0 ∧
    (reset s)._validHeartRate = 0 ∧
    getSpO2 (reset s) = -1 ∧
    getHeartRate (reset s) = -1 ∧
    (pushCount calls < 100 → (run w (reset s) calls)._bufferReady = false) ∧
    (100 ≤ pushCount calls → (run w (reset s) calls)._bufferReady = true) := by
  have hr := (run_count w calls (reset s) 0 hno rfl rfl).2
  simp only [Nat.zero_add] at hr
  refine ⟨rfl, rfl, rfl, rfl, rfl, rfl, rfl, rfl, rfl, rfl, ?_, ?_, ?_, ?_⟩
  · simp [getSpO2, reset]
  · simp [getHeartRate, reset]
  · intro h
    rw [hr]
    exact decide_eq_false (by omega)
  · intro h
    rw [hr]
    exact decide_eq_true h

set_option maxRecDepth 100000 in
/-- Witness for C6: a session that has filled its buffer and holds 98 / 72 is
reset and then polled once with a single sample. -/
theorem reset_clears_measurement_keeps_gain_witness :
    (run 16 (construct [] []) [.begin true, .update fillPoll])._bufferReady = true ∧
    getSpO2 (run 16 (construct [] []) [.begin true, .update fillPoll]) = 98 ∧
    getSpO2 (reset (run 16 (construct [] []) [.begin true, .update fillPoll])) = -1 ∧
    (run 16 (reset (run 16 (construct [] []) [.begin true, .update fillPoll]))
      [Call.update weakSignalPoll])._bufferReady = false :=
  ⟨by decide, by decide,
    (reset_clears_measurement_keeps_gain 16
      (run 16 (construct [] []) [.begin true, .update fillPoll])
      [Call.update weakSignalPoll] (by simp [Call.restarts])).2.2.2.2.2.2.2.2.2.2.1,
    (reset_clears_measurement_keeps_gain 16
      (run 16 (construct [] []) [.begin true, .update fillPoll])
      [Call.update weakSignalPoll] (by simp [Call.restarts])).2.2.2.2.2.2.2.2.2.2.2.2.1
      (by decide)⟩

/-! ## Bootstrap of the smoothed values -/

theorem pushSample_lastIR (s : State) (x : Sample) : (pushSample s x)._lastIR = x.ir := by
  unfold pushSample
  dsimp only
  split <;> rfl

theorem collect_lastIR_ge (xs : List Sample) (s : State) (t : Nat) (hne : xs ≠ [])
    (h : ∀ x ∈ xs, t ≤ x.ir) : t ≤ (_collectSensorData xs s)._lastIR := by
  induction xs generalizing s with
  | nil => exact absurd rfl hne
  | cons x xs ih =>
    simp only [_collectSensorData, List.foldl_cons]
    by_cases hx : xs = []
    · subst hx
      simp only [List.foldl_nil, pushSample_lastIR]
      exact h x (List.mem_cons_self _ _)
    · exact ih (pushSample s x) hx (fun y hy => h y (List.mem_cons_of_mem _ hy))

theorem update_not_ready (w : Nat) (p : Poll) (s : State)
    (hnr : (_collectSensorData p.samples s)._bufferReady = false) :
    (update w p s)._smoothedSpO2 = s._smoothedSpO2 ∧
    (update w p s)._smoothedHeartRate = s._smoothedHeartRate ∧
    (update w p s)._validSpO2 = s._validSpO2 ∧
    (update w p s)._validHeartRate = s._validHeartRate ∧
    (update w p s)._lastCalculation = s._lastCalculation := by
  have hb : beforeGain w p s = _collectSensorData p.samples s := by
    unfold beforeGain
    simp [hnr]
  obtain ⟨-, -, -, -, c5, c6, c7, c8⟩ := collect_frame p.samples s
  obtain ⟨-, -, -, c4, -⟩ := collect_frame p.samples s
  obtain ⟨-, -, -, -, -, a6, a7, a8, a9, a10, -⟩ :=
    adjustAutoGain_frame p.millisGain (_collectSensorData p.samples s)
  rw [update_eq, hb]
  split_ifs
  · rw [a6, a7, a8, a9, a10]; exact ⟨c5, c6, c7, c8, c4⟩
  · exact ⟨c5, c6, c7, c8, c4⟩

theorem run_before_ready (w : Nat) (calls : List Call) (s : State) (k : Nat)
    (hno : ∀ c ∈ calls, c.restarts = false)
    (hh : s._bufferHead = ((k % 100 : Nat) : Int)) (hr : s._bufferReady = decide (100 ≤ k))
    (hlt : k + pushCount calls < 100) :
    (run w s calls)._smoothedSpO2 = s._smoothedSpO2 ∧
    (run w s calls)._smoothedHeartRate = s._smoothedHeartRate ∧
    (run w s calls)._validSpO2 = s._validSpO2 ∧
    (run w s calls)._validHeartRate = s._validHeartRate ∧
    (run w s calls)._lastCalculation = s._lastCalculation := by
  induction calls generalizing s k with
  | nil => exact ⟨rfl, rfl, rfl, rfl, rfl⟩
  | cons c cs ih =>
    have hc : c.restarts = false := hno c (List.mem_cons_self _ _)
    have hcs : ∀ d ∈ cs, d.restarts = false := fun d hd => hno d (List.mem_cons_of_mem _ hd)
    have e : pushCount (c :: cs) = c.pushes + pushCount cs := by
      simp only [pushCount, List.map_cons, List.sum_cons]
    have cnt := run_count w [c] s k
      (fun d hd => by rw [List.mem_singleton] at hd; rw [hd]; exact hc) hh hr
    have e1 : pushCount [c] = c.pushes := by simp [pushCount]
    rw [e1] at cnt
    have step : (c.apply w s)._smoothedSpO2 = s._smoothedSpO2 ∧
        (c.apply w s)._smoothedHeartRate = s._smoothedHeartRate ∧
        (c.apply w s)._validSpO2 = s._validSpO2 ∧
        (c.apply w s)._validHeartRate = s._validHeartRate ∧
        (c.apply w s)._lastCalculation = s._lastCalculation := by
      cases c with
      | update p =>
        apply update_not_ready
        rw [(collect_count p.samples s k hh hr).2]
        simp only [Call.pushes] at e
        exact decide_eq_false (by omega)
      | reset => simp [Call.restarts] at hc
      | setAutoGain enabled => exact ⟨rfl, rfl, rfl, rfl, rfl⟩
      | begin sensorFound =>
        simp only [Call.restarts] at hc
        subst hc
        exact ⟨rfl, rfl, rfl, rfl, rfl⟩
    have h := ih (c.apply w s) (k + c.pushes) hcs cnt.1 cnt.2 (by omega)
    obtain ⟨h1, h2, h3, h4, h5⟩ := h
    obtain ⟨t1, t2, t3, t4, t5⟩ := step
    exact ⟨h1.trans t1, h2.trans t2, h3.trans t3, h4.trans t4, h5.trans t5⟩

theorem calculateVitals_bootstrap (w : Nat) (est : Estimator) (s : State)
    (sp v1 hr v2 : Int)
    (hf : isFingerDetected s = true)
    (hest : est s._irBuffer BUFFER_LENGTH s._redBuffer = ⟨sp, v1, hr, v2⟩)
    (hv1 : v1 ≠ 0) (hv2 : v2 ≠ 0) (hsp : 0 < sp ∧ sp ≤ 100) (hhr : 0 < hr ∧ hr < 240)
    (hs1 : s._smoothedSpO2 < 0) (hs2 : s._smoothedHeartRate < 0) :
    (_calculateVitals w est s)._smoothedSpO2 = sp ∧
    (_calculateVitals w est s)._smoothedHeartRate = hr ∧
    (_calculateVitals w est s)._validSpO2 = v1 ∧
    (_calculateVitals w est s)._validHeartRate = v2 := by
  unfold _calculateVitals
  simp only [hf, hest, _updateEMA]
  simp [hv1, hv2, hsp.1, hsp.2, hhr.1, hhr.2, hs1, hs2]

theorem bootstrap_from_fresh (w : Nat) (start : State) (pre : List Call) (p : Poll)
    (sp v1 hr v2 : Int)
    (hh : start._bufferHead = 0) (hr0 : start._bufferReady = false)
    (hs1 : start._smoothedSpO2 < 0) (hs2 : start._smoothedHeartRate < 0)
    (hpre : ∀ c ∈ pre, c.restarts = false)
    (hlt : pushCount pre < 100)
    (hge : 100 ≤ pushCount pre + p.samples.length)
    (hir : ∀ x ∈ p.samples, FINGER_THRESHOLD ≤ x.ir)
    (hdue : CALCULATION_INTERVAL ≤ subU32 p.millisCalc start._lastCalculation)
    (hest : p.estimator (_collectSensorData p.samples (run w start pre))._irBuffer BUFFER_LENGTH
      (_collectSensorData p.samples (run w start pre))._redBuffer = ⟨sp, v1, hr, v2⟩)
    (hv1 : v1 ≠ 0) (hv2 : v2 ≠ 0) (hsp : 0 < sp ∧ sp ≤ 100) (hhr : 0 < hr ∧ hr < 240) :
    (update w p (run w start pre))._smoothedSpO2 = sp ∧
    (update w p (run w start pre))._smoothedHeartRate = hr ∧
    getSpO2 (update w p (run w start pre)) = sp ∧
    getHeartRate (update w p (run w start pre)) = hr := by
  have hh0 : start._bufferHead = ((0 % 100 : Nat) : Int) := hh
  have hr00 : start._bufferReady = decide (100 ≤ 0) := hr0
  obtain ⟨q1, q2, -, -, q5⟩ := run_before_ready w pre start 0 hpre hh0 hr00 (by omega)
  obtain ⟨n1, n2⟩ := run_count w pre start 0 hpre hh0 hr00
  simp only [Nat.zero_add] at n1 n2
  -- the state after the samples of the final poll have been drained
  obtain ⟨m1, m2⟩ := collect_count p.samples (run w start pre) (pushCount pre) n1 n2
  have hready : (_collectSensorData p.samples (run w start pre))._bufferReady = true := by
    rw [m2]; exact decide_eq_true hge
  obtain ⟨-, -, -, c4, c5, c6, -, -⟩ := collect_frame p.samples (run w start pre)
  have hne : p.samples ≠ [] := by
    intro h0
    rw [h0] at hge
    simp only [List.length_nil] at hge
    omega
  have hfinger : isFingerDetected (_collectSensorData p.samples (run w start pre)) = true := by
    unfold isFingerDetected
    exact decide_eq_true (collect_lastIR_ge p.samples _ FINGER_THRESHOLD hne hir)
  obtain ⟨b1, b2, b3, b4⟩ := calculateVitals_bootstrap w p.estimator
    (_collectSensorData p.samples (run w start pre)) sp v1 hr v2 hfinger hest hv1 hv2 hsp hhr
    (by rw [c5, q1]; exact hs1) (by rw [c6, q2]; exact hs2)
  obtain ⟨-, -, -, f4, -⟩ := calculateVitals_frame w p.estimator
    (_collectSensorData p.samples (run w start pre))
  have hbg : beforeGain w p (run w start pre) =
      { _calculateVitals w p.estimator (_collectSensorData p.samples (run w start pre)) with
        _lastCalculation := p.millisStamp } := by
    unfold beforeGain
    have hd : subU32 p.millisCalc (_collectSensorData p.samples (run w start pre))._lastCalculation
        ≥ CALCULATION_INTERVAL := by
      rw [c4, q5]; exact hdue
    simp only [hready, hd, and_self, if_true]
  have key : ∀ t : State,
      t._smoothedSpO2 = sp → t._smoothedHeartRate = hr → t._validSpO2 = v1 →
      t._validHeartRate = v2 → isFingerDetected t = true →
      t._smoothedSpO2 = sp ∧ t._smoothedHeartRate = hr ∧ getSpO2 t = sp ∧ getHeartRate t = hr := by
    intro t t1 t2 t3 t4 t5
    refine ⟨t1, t2, ?_, ?_⟩
    · unfold getSpO2
      have : ¬ sp < 0 := by omega
      simp [t1, t3, t5, hv1, this]
    · unfold getHeartRate
      have : ¬ hr < 0 := by omega
      simp [t2, t4, t5, hv2, this]
  have hfb : isFingerDetected (beforeGain w p (run w start pre)) = true := by
    rw [hbg]
    unfold isFingerDetected at hfinger ⊢
    simp only [f4]
    exact hfinger
  obtain ⟨-, -, -, -, a5, a6, a7, a8, a9, -, -⟩ :=
    adjustAutoGain_frame p.millisGain (beforeGain w p (run w start pre))
  rw [update_eq]
  split_ifs
  · apply key
    · rw [a6, hbg]; exact b1
    · rw [a7, hbg]; exact b2
    · rw [a8, hbg]; exact b3
    · rw [a9, hbg]; exact b4
    · unfold isFingerDetected at hfb ⊢
      rw [a5]; exact hfb
  · apply key
    · rw [hbg]; exact b1
    · rw [hbg]; exact b2
    · rw [hbg]; exact b3
    · rw [hbg]; exact b4
    · exact hfb

/-- C7: bootstrap end to end.  Start from a session that was just constructed,
initialised with `begin()` or `reset()`.  Let earlier calls push fewer than 100
samples, and let one `update()` drain samples, all with infrared >= 15000, that
bring the total to at least 100, with the calculation gate due and the
estimator returning a valid pair (sp, hr) with 0 < sp <= 100 and
0 < hr < 240.  Then the smoothed saturation is sp, the smoothed heart rate
is hr, `getSpO2()` returns sp and `getHeartRate()` returns hr. -/
theorem bootstrap_end_to_end (w : Nat) (s0 start : State) (irMem redMem : List Nat)
    (pre : List Call) (p : Poll) (sp v1 hr v2 : Int)
    (hstart : start = reset s0 ∨ start = (begin true s0).1 ∨ start = construct irMem redMem)
    (hpre : ∀ c ∈ pre, c.restarts = false)
    (hlt : pushCount pre < 100)
    (hge : 100 ≤ pushCount pre + p.samples.length)
    (hir : ∀ x ∈ p.samples, FINGER_THRESHOLD ≤ x.ir)
    (hdue : CALCULATION_INTERVAL ≤ subU32 p.millisCalc start._lastCalculation)
    (hest : p.estimator (_collectSensorData p.samples (run w start pre))._irBuffer BUFFER_LENGTH
      (_collectSensorData p.samples (run w start pre))._redBuffer = ⟨sp, v1, hr, v2⟩)
    (hv1 : v1 ≠ 0) (hv2 : v2 ≠ 0) (hsp : 0 < sp ∧ sp ≤ 100) (hhr : 0 < hr ∧ hr < 240) :
    (update w p (run w start pre))._smoothedSpO2 = sp ∧
    (update w p (run w start pre))._smoothedHeartRate = hr ∧
    getSpO2 (update w p (run w start pre)) = sp ∧
    getHeartRate (update w p (run w start pre)) = hr := by
  have fresh : start._bufferHead = 0 ∧ start._bufferReady = false ∧
      start._smoothedSpO2 < 0 ∧ start._smoothedHeartRate < 0 := by
    rcases hstart with h | h | h <;> subst h <;>
      simp [reset, begin, construct]
  exact bootstrap_from_fresh w start pre p sp v1 hr v2 fresh.1 fresh.2.1 fresh.2.2.1
    fresh.2.2.2 hpre hlt hge hir hdue hest hv1 hv2 hsp hhr

set_option maxRecDepth 100000 in
/-- Witness for C7: the end-to-end scenario of the specification, 100 samples
with infrared 30000 / red 20000 and an estimator returning 98 and 72. -/
theorem bootstrap_end_to_end_witness :
    getSpO2 (update 16 fillPoll (run 16 (reset weakSignalState) [])) = 98 ∧
    getHeartRate (update 16 fillPoll (run 16 (reset weakSignalState) [])) = 72 ∧
    ((update 16 fillPoll (run 16 (reset weakSignalState) []))._smoothedSpO2 = 98 ∧
      (update 16 fillPoll (run 16 (reset weakSignalState) []))._smoothedHeartRate = 72 ∧
      getSpO2 (update 16 fillPoll (run 16 (reset weakSignalState) [])) = 98 ∧
      getHeartRate (update 16 fillPoll (run 16 (reset weakSignalState) [])) = 72) :=
  ⟨by decide, by decide,
    bootstrap_end_to_end 16 weakSignalState (reset weakSignalState) [] [] [] fillPoll
      98 1 72 1 (Or.inl rfl) (by simp) (by decide) (by decide) (by decide) (by decide)
      rfl (by decide) (by decide) (by decide) (by decide)⟩

/-! ## The gain controller -/

theorem update_gain_fields (w : Nat) (p : Poll) (s : State) :
    ∃ t : State,
      t._currentLEDBrightness = s._currentLEDBrightness ∧
      t._lastGainAdjustment = s._lastGainAdjustment ∧
      t._lastIR = (_collectSensorData p.samples s)._lastIR ∧
      (update w p s)._currentLEDBrightness =
        (if s._autoGainEnabled then (_adjustAutoGain p.millisGain t)._currentLEDBrightness
          else s._currentLEDBrightness) ∧
      (update w p s)._lastGainAdjustment =
        (if s._autoGainEnabled then (_adjustAutoGain p.millisGain t)._lastGainAdjustment
          else s._lastGainAdjustment) := by
  obtain ⟨b1, b2, b3, b4, -, -⟩ := beforeGain_frame w p s
  refine ⟨beforeGain w p s, b1, b3, b4, ?_, ?_⟩
  · rw [update_eq, b2]
    split_ifs
    · rfl
    · exact b1
  · rw [update_eq, b2]
    split_ifs
    · rfl
    · exact b3

/-- The increase rule where the byte addition is exact: brightness at most
250. -/
theorem gain_increase_below_250 (now : Nat) (s : State)
    (hdue : GAIN_ADJUSTMENT_INTERVAL ≤ subU32 now s._lastGainAdjustment)
    (hfinger : FINGER_THRESHOLD ≤ s._lastIR) (hir : s._lastIR < IR_TARGET_LOW)
    (hb : s._currentLEDBrightness ≤ 250) :
    (_adjustAutoGain now s)._currentLEDBrightness = min (s._currentLEDBrightness + 5) 255 ∧
    (_adjustAutoGain now s)._lastGainAdjustment = now := by
  have hf : ¬ isFingerDetected s = false := by
    simp only [isFingerDetected, decide_eq_false_iff_not, not_not]; exact hfinger
  rw [adjustAutoGain_brightness, adjustAutoGain_stamp]
  simp only [LED_MAX, LED_STEP, GAIN_ADJUSTMENT_INTERVAL, IR_TARGET_LOW] at *
  have h1 : ¬ subU32 now s._lastGainAdjustment < 800 := by omega
  have h3 : s._lastIR < 25000 ∧ s._currentLEDBrightness < 255 := ⟨hir, by omega⟩
  have h4 : (s._currentLEDBrightness + 5) % 256 = s._currentLEDBrightness + 5 :=
    Nat.mod_eq_of_lt (by omega)
  have h5 : ¬ s._currentLEDBrightness + 5 > 255 := by omega
  simp only [if_neg h1, if_neg hf, if_pos h3, h4, if_neg h5, and_true]
  omega

/-- C8: in every reachable state with the gain gate due, the finger present,
latest infrared below 25000 and brightness b, 20 <= b < 255, one gain
evaluation sets the brightness to min(b + 5, 255) and the last-adjustment
timestamp to the current time; `update()` performs that evaluation when
auto-gain is enabled.  (Reachable brightness is a multiple of 5, so the byte
sum b + 5 is exact.) -/
theorem gain_increase_rule (w : Nat) (now : Nat) (s : State) (p : Poll)
    (hreach : Reachable w s)
    (hb : LED_MIN ≤ s._currentLEDBrightness ∧ s._currentLEDBrightness < LED_MAX) :
    (GAIN_ADJUSTMENT_INTERVAL ≤ subU32 now s._lastGainAdjustment →
      FINGER_THRESHOLD ≤ s._lastIR → s._lastIR < IR_TARGET_LOW →
      (_adjustAutoGain now s)._currentLEDBrightness = min (s._currentLEDBrightness + 5) 255 ∧
      (_adjustAutoGain now s)._lastGainAdjustment = now) ∧
    (s._autoGainEnabled = true →
      GAIN_ADJUSTMENT_INTERVAL ≤ subU32 p.millisGain s._lastGainAdjustment →
      FINGER_THRESHOLD ≤ (_collectSensorData p.samples s)._lastIR →
      (_collectSensorData p.samples s)._lastIR < IR_TARGET_LOW →
      (update w p s)._currentLEDBrightness = min (s._currentLEDBrightness + 5) 255 ∧
      (update w p s)._lastGainAdjustment = p.millisGain) := by
  obtain ⟨irMem, redMem, calls, rfl⟩ := hreach
  obtain ⟨-, -, h5⟩ := run_keeps_bounds w calls (construct irMem redMem)
    (by simp [construct, LED_BRIGHTNESS, LED_MIN, LED_MAX])
  have h250 : (run w (construct irMem redMem) calls)._currentLEDBrightness ≤ 250 := by
    simp only [LED_MAX] at hb
    omega
  refine ⟨fun hdue hfin hir => gain_increase_below_250 now _ hdue hfin hir h250, ?_⟩
  intro hauto hdue hfin hir
  obtain ⟨t, t1, t2, t3, t4, t5⟩ := update_gain_fields w p (run w (construct irMem redMem) calls)
  rw [t4, t5, hauto]
  simp only [if_true]
  have := gain_increase_below_250 p.millisGain t (by rw [t2]; exact hdue)
    (by rw [t3]; exact hfin) (by rw [t3]; exact hir) (by rw [t1]; exact h250)
  rw [t1] at this
  exact this

/-- Witness for C8: after six adjustments the brightness is 250; the weak-signal
poll at 5600 ms sets it to min(250 + 5, 255) = 255. -/
theorem gain_increase_rule_witness :
    Reachable 16 brightness250State ∧
    brightness250State._currentLEDBrightness = 250 ∧
    (update 16 (weakPollAt 5600) brightness250State)._currentLEDBrightness = 255 ∧
    ((update 16 (weakPollAt 5600) brightness250State)._currentLEDBrightness =
        min (brightness250State._currentLEDBrightness + 5) 255 ∧
      (update 16 (weakPollAt 5600) brightness250State)._lastGainAdjustment =
        (weakPollAt 5600).millisGain) :=
  ⟨⟨[], [], _, rfl⟩, by decide, by decide,
    (gain_increase_rule 16 0 brightness250State (weakPollAt 5600) ⟨[], [], _, rfl⟩
      (by decide)).2 (by decide) (by decide) (by decide) (by decide)⟩

/-- C9: with the gain gate due, latest infrared above 90000 and brightness b,
20 < b <= 255, one gain evaluation sets the brightness to max(b - 5, 20) and
the last-adjustment timestamp to the current time; `update()` performs that
evaluation when auto-gain is enabled. -/
theorem gain_decrease_rule (w : Nat) (now : Nat) (s : State) (p : Poll)
    (hb : LED_MIN < s._currentLEDBrightness ∧ s._currentLEDBrightness ≤ LED_MAX) :
    (GAIN_ADJUSTMENT_INTERVAL ≤ subU32 now s._lastGainAdjustment →
      IR_TARGET_HIGH < s._lastIR →
      (_adjustAutoGain now s)._currentLEDBrightness = max (s._currentLEDBrightness - 5) 20 ∧
      (_adjustAutoGain now s)._lastGainAdjustment = now) ∧
    (s._autoGainEnabled = true →
      GAIN_ADJUSTMENT_INTERVAL ≤ subU32 p.millisGain s._lastGainAdjustment →
      IR_TARGET_HIGH < (_collectSensorData p.samples s)._lastIR →
      (update w p s)._currentLEDBrightness = max (s._currentLEDBrightness - 5) 20 ∧
      (update w p s)._lastGainAdjustment = p.millisGain) := by
  have core : ∀ (t : State) (n : Nat),
      LED_MIN < t._currentLEDBrightness ∧ t._currentLEDBrightness ≤ LED_MAX →
      GAIN_ADJUSTMENT_INTERVAL ≤ subU32 n t._lastGainAdjustment →
      IR_TARGET_HIGH < t._lastIR →
      (_adjustAutoGain n t)._currentLEDBrightness = max (t._currentLEDBrightness - 5) 20 ∧
      (_adjustAutoGain n t)._lastGainAdjustment = n := by
    intro t n hbt hdue hir
    have hf : ¬ isFingerDetected t = false := by
      simp only [isFingerDetected, decide_eq_false_iff_not, not_not, FINGER_THRESHOLD]
      simp only [IR_TARGET_HIGH] at hir
      omega
    rw [adjustAutoGain_brightness, adjustAutoGain_stamp]
    simp only [LED_MAX, LED_STEP, LED_MIN, IR_TARGET_LOW, IR_TARGET_HIGH,
      GAIN_ADJUSTMENT_INTERVAL, toByte] at *
    have h1 : ¬ subU32 n t._lastGainAdjustment < 800 := by omega
    have h3 : ¬ (t._lastIR < 25000 ∧ t._currentLEDBrightness < 255) := by omega
    have h4 : t._lastIR > 90000 ∧ t._currentLEDBrightness > 20 := ⟨hir, hbt.1⟩
    simp only [if_neg h1, if_neg hf, if_neg h3, if_pos h4, and_true]
    split_ifs with h5
    · omega
    · rw [Int.emod_eq_of_lt (by omega) (by omega)]
      omega
  refine ⟨core s now hb, ?_⟩
  intro hauto hdue hir
  obtain ⟨t, t1, t2, t3, t4, t5⟩ := update_gain_fields w p s
  rw [t4, t5, hauto]
  simp only [if_true]
  have := core t p.millisGain (by rw [t1]; exact hb) (by rw [t2]; exact hdue)
    (by rw [t3]; exact hir)
  rw [t1] at this
  exact this

/-- Witness for C9: brightness 22 with infrared 95000 becomes 20 (clamped). -/
theorem gain_decrease_rule_witness :
    (LED_MIN < brightness22State._currentLEDBrightness ∧
      brightness22State._currentLEDBrightness ≤ LED_MAX) ∧
    (_adjustAutoGain 5000 brightness22State)._currentLEDBrightness = 20 ∧
    ((_adjustAutoGain 5000 brightness22State)._currentLEDBrightness =
        max (brightness22State._currentLEDBrightness - 5) 20 ∧
      (_adjustAutoGain 5000 brightness22State)._lastGainAdjustment = 5000) :=
  ⟨by decide, by decide,
    (gain_decrease_rule 16 5000 brightness22State idlePoll (by decide)).1
      (by decide) (by decide)⟩

/-- C10: an `update()` leaves the brightness and the gain gate's
last-adjustment timestamp unchanged whenever auto-gain is disabled, or the gain
gate is not due, or the finger is absent, or the latest infrared is in the band
[25000, 90000], or the brightness is at the clamp limit on the relevant side
(255 with a weak signal, 20 with a strong one); and an update that changes the
timestamp also changes the brightness. -/
theorem update_without_adjustment (w : Nat) (p : Poll) (s : State) :
    ((s._autoGainEnabled = false ∨
      subU32 p.millisGain s._lastGainAdjustment < GAIN_ADJUSTMENT_INTERVAL ∨
      (_collectSensorData p.samples s)._lastIR < FINGER_THRESHOLD ∨
      (IR_TARGET_LOW ≤ (_collectSensorData p.samples s)._lastIR ∧
        (_collectSensorData p.samples s)._lastIR ≤ IR_TARGET_HIGH) ∨
      ((_collectSensorData p.samples s)._lastIR < IR_TARGET_LOW ∧
        s._currentLEDBrightness = LED_MAX) ∨
      ((_collectSensorData p.samples s)._lastIR > IR_TARGET_HIGH ∧
        s._currentLEDBrightness = LED_MIN)) →
      (update w p s)._currentLEDBrightness = s._currentLEDBrightness ∧
      (update w p s)._lastGainAdjustment = s._lastGainAdjustment) ∧
    ((update w p s)._lastGainAdjustment ≠ s._lastGainAdjustment →
      (update w p s)._currentLEDBrightness ≠ s._currentLEDBrightness) := by
  obtain ⟨t, t1, t2, t3, t4, t5⟩ := update_gain_fields w p s
  rw [t4, t5, adjustAutoGain_brightness, adjustAutoGain_stamp, t1, t2, ← t3]
  have hfd : isFingerDetected t = false ↔ t._lastIR < FINGER_THRESHOLD := by
    simp [isFingerDetected]
  simp only [hfd]
  simp only [LED_MAX, LED_STEP, LED_MIN, IR_TARGET_LOW, IR_TARGET_HIGH,
    GAIN_ADJUSTMENT_INTERVAL, FINGER_THRESHOLD, toByte]
  constructor
  · intro h
    cases hauto : s._autoGainEnabled
    · simp
    · simp only [hauto, Bool.true_eq_false, false_or, if_true] at h ⊢
      split_ifs <;> first | exact ⟨rfl, rfl⟩ | omega
  · cases hauto : s._autoGainEnabled
    · simp
    · simp only [if_true]
      split_ifs with g1 g2 g3 g4 g5 g6 <;> intro hne <;>
        first
        | exact absurd rfl hne
        | omega

/-- Witness for C10: an in-band poll (infrared 50000) changes neither field,
and the weak-signal poll that moves the timestamp from 0 to 1000 moves the
brightness from 220 to 225. -/
theorem update_without_adjustment_witness :
    (IR_TARGET_LOW ≤ (_collectSensorData idlePoll.samples inBandState)._lastIR ∧
      (_collectSensorData idlePoll.samples inBandState)._lastIR ≤ IR_TARGET_HIGH) ∧
    ((update 16 idlePoll inBandState)._currentLEDBrightness =
        inBandState._currentLEDBrightness ∧
      (update 16 idlePoll inBandState)._lastGainAdjustment =
        inBandState._lastGainAdjustment) ∧
    (update 16 weakSignalPoll (construct [] []))._lastGainAdjustment ≠
      (construct [] [])._lastGainAdjustment ∧
    (update 16 weakSignalPoll (construct [] []))._currentLEDBrightness ≠
      (construct [] [])._currentLEDBrightness :=
  ⟨by decide,
    (update_without_adjustment 16 idlePoll inBandState).1
      (Or.inr (Or.inr (Or.inr (Or.inl (by decide))))),
    by decide,
    (update_without_adjustment 16 weakSignalPoll (construct [] [])).2 (by decide)⟩

/-! ## Convergence of the brightness under a weak signal -/

theorem update_autoGain (w : Nat) (p : Poll) (s : State) :
    (update w p s)._autoGainEnabled = s._autoGainEnabled := by
  obtain ⟨-, b2, -⟩ := beforeGain_frame w p s
  have a := (adjustAutoGain_frame p.millisGain (beforeGain w p s)).2.2.2.2.2.2.2.2.2.2
  rw [update_eq]
  split_ifs
  · rw [a, b2]
  · exact b2

theorem weak_step (w : Nat) (p : Poll) (s : State)
    (hauto : s._autoGainEnabled = true) (hweak : weakAt p s = true)
    (hb : s._currentLEDBrightness ≤ 250 ∨ s._currentLEDBrightness = 255) :
    (update w p s)._currentLEDBrightness =
      if gainDue p s = true ∧ s._currentLEDBrightness < 255 then s._currentLEDBrightness + 5
      else s._currentLEDBrightness := by
  obtain ⟨t, t1, t2, t3, t4, -⟩ := update_gain_fields w p s
  simp only [weakAt, decide_eq_true_eq] at hweak
  rw [← t3] at hweak
  have hf : ¬ isFingerDetected t = false := by
    simp only [isFingerDetected, decide_eq_false_iff_not, not_not]; exact hweak.1
  rw [t4, hauto, if_pos rfl, adjustAutoGain_brightness, t1, t2]
  simp only [gainDue, decide_eq_true_eq, LED_MAX, LED_STEP, LED_MIN, IR_TARGET_LOW,
    IR_TARGET_HIGH, GAIN_ADJUSTMENT_INTERVAL, if_neg hf] at *
  by_cases hd : subU32 p.millisGain s._lastGainAdjustment < 800
  · rw [if_pos hd, if_neg (by omega)]
  · rw [if_neg hd]
    by_cases hlt : s._currentLEDBrightness < 255
    · have h4 : (s._currentLEDBrightness + 5) % 256 = s._currentLEDBrightness + 5 :=
        Nat.mod_eq_of_lt (by omega)
      have h5 : ¬ s._currentLEDBrightness + 5 > 255 := by omega
      rw [if_pos ⟨hweak.2, hlt⟩, h4, if_neg h5, if_pos ⟨by omega, hlt⟩]
    · have h3 : ¬ (t._lastIR < 25000 ∧ s._currentLEDBrightness < 255) := by omega
      have h6 : ¬ (t._lastIR > 90000 ∧ s._currentLEDBrightness > 20) := by omega
      rw [if_neg h3, if_neg h6, if_neg (by omega)]

theorem weak_run (w : Nat) (ps : List Poll) (s : State) (j : Nat)
    (hauto : s._autoGainEnabled = true) (hb : s._currentLEDBrightness = 220 + 5 * j)
    (hj : j ≤ 7) (hweak : allWeak w s ps = true) :
    (run w s (ps.map Call.update))._currentLEDBrightness =
      220 + 5 * (j + (changeTimes w s ps).length) ∧
    j + (changeTimes w s ps).length ≤ 7 ∧
    (run w s (ps.map Call.update))._autoGainEnabled = true := by
  induction ps generalizing s j with
  | nil => exact ⟨by simpa [run, changeTimes] using hb, by simpa [changeTimes] using hj, hauto⟩
  | cons p ps ih =>
    simp only [allWeak, Bool.and_eq_true] at hweak
    have hstep := weak_step w p s hauto hweak.1 (by omega)
    have hauto2 : (update w p s)._autoGainEnabled = true := by rw [update_autoGain]; exact hauto
    simp only [List.map_cons, run, List.foldl_cons, Call.apply, changeTimes,
      List.length_append]
    by_cases hc : gainDue p s = true ∧ s._currentLEDBrightness < 255
    · rw [if_pos hc] at hstep
      have hne : (update w p s)._currentLEDBrightness ≠ s._currentLEDBrightness := by omega
      have h := ih (update w p s) (j + 1) hauto2 (by omega) (by omega) hweak.2
      simp only [run] at h
      rw [if_pos hne, List.length_singleton]
      refine ⟨?_, ?_, h.2.2⟩
      · rw [h.1]; omega
      · omega
    · rw [if_neg hc] at hstep
      have heq : ¬ (update w p s)._currentLEDBrightness ≠ s._currentLEDBrightness := by
        rw [hstep]; exact fun h => h rfl
      have h := ih (update w p s) j hauto2 (by omega) hj hweak.2
      simp only [run] at h
      rw [if_neg heq, List.length_nil]
      refine ⟨?_, ?_, h.2.2⟩
      · rw [h.1]; omega
      · omega

/-- C11: start from a newly constructed object (brightness 220, auto-gain
enabled) and poll with the finger present and the latest infrared below 25000
at every poll.  After k applied adjustments the brightness is 220 + 5 k, there
are never more than 7 of them, and after the 7th it is 255.  At each further
poll under the same condition an adjustment is applied exactly when the gate
is due and the brightness is below 255 (it then adds 5); in particular the
brightness 255 is kept. -/
theorem weak_signal_reaches_max_in_seven (w : Nat) (irMem redMem : List Nat)
    (ps : List Poll) (p : Poll)
    (hweak : allWeak w (construct irMem redMem) (ps ++ [p]) = true) :
    (run w (construct irMem redMem) (ps.map Call.update))._currentLEDBrightness =
      220 + 5 * (changeTimes w (construct irMem redMem) ps).length ∧
    (changeTimes w (construct irMem redMem) ps).length ≤ 7 ∧
    ((changeTimes w (construct irMem redMem) ps).length = 7 →
      (run w (construct irMem redMem) (ps.map Call.update))._currentLEDBrightness = 255) ∧
    (update w p (run w (construct irMem redMem) (ps.map Call.update)))._currentLEDBrightness =
      (if gainDue p (run w (construct irMem redMem) (ps.map Call.update)) = true ∧
          (run w (construct irMem redMem) (ps.map Call.update))._currentLEDBrightness < 255
        then (run w (construct irMem redMem) (ps.map Call.update))._currentLEDBrightness + 5
        else (run w (construct irMem redMem) (ps.map Call.update))._currentLEDBrightness) ∧
    ((run w (construct irMem redMem) (ps.map Call.update))._currentLEDBrightness = 255 →
      (update w p (run w (construct irMem redMem) (ps.map Call.update)))._currentLEDBrightness
        = 255) := by
  have happ : ∀ (qs : List Poll) (s : State),
      allWeak w s (qs ++ [p]) = true →
      allWeak w s qs = true ∧ weakAt p (run w s (qs.map Call.update)) = true := by
    intro qs
    induction qs with
    | nil =>
      intro s h
      simp only [List.nil_append, allWeak, Bool.and_true] at h
      exact ⟨rfl, h⟩
    | cons q qs ih =>
      intro s h
      simp only [List.cons_append, allWeak, Bool.and_eq_true] at h
      obtain ⟨h1, h2⟩ := ih (update w q s) h.2
      refine ⟨?_, h2⟩
      simp only [allWeak, Bool.and_eq_true]
      exact ⟨h.1, h1⟩
  obtain ⟨hps, hp⟩ := happ ps (construct irMem redMem) hweak
  obtain ⟨r1, r2, r3⟩ := weak_run w ps (construct irMem redMem) 0 rfl rfl (by omega) hps
  simp only [Nat.zero_add] at r1 r2
  have hstep := weak_step w p _ r3 hp (by omega)
  refine ⟨r1, r2, ?_, hstep, ?_⟩
  · intro h7
    rw [r1, h7]
  · intro h255
    rw [hstep, if_neg (by omega)]
    exact h255

set_option maxRecDepth 100000 in
/-- Witness for C11: polls every 800 ms with infrared 20000: the seven
adjustments happen at 800, 1600, ..., 5600 ms, the brightness is then 255, and
the polls at 6400 and 7200 ms leave it there. -/
theorem weak_signal_reaches_max_in_seven_witness :
    changeTimes 16 (construct [] []) weakPolls = [800, 1600, 2400, 3200, 4000, 4800, 5600] ∧
    (run 16 (construct [] []) (weakPolls.map Call.update))._currentLEDBrightness = 255 ∧
    (update 16 (weakPollAt 7200)
      (run 16 (construct [] []) (weakPolls.map Call.update)))._currentLEDBrightness = 255 ∧
    ((changeTimes 16 (construct [] []) weakPolls).length = 7 →
      (run 16 (construct [] []) (weakPolls.map Call.update))._currentLEDBrightness = 255) :=
  ⟨by decide, by decide, by decide,
    (weak_signal_reaches_max_in_seven 16 [] [] weakPolls (weakPollAt 7200) (by decide)).2.2.1⟩

/-! ## The calculation cycle -/

theorem calculateVitals_present (w : Nat) (est : Estimator) (s : State) (r : EstimatorResult)
    (hf : isFingerDetected s = true)
    (hest : est s._irBuffer BUFFER_LENGTH s._redBuffer = r) :
    (_calculateVitals w est s)._smoothedSpO2 =
      (if r.spo2Valid ≠ 0 ∧ r.spo2 > 0 ∧ r.spo2 ≤ 100 then
        _updateEMA w s._smoothedSpO2 r.spo2 else s._smoothedSpO2) ∧
    (_calculateVitals w est s)._smoothedHeartRate =
      (if r.heartRateValid ≠ 0 ∧ r.heartRate > 0 ∧ r.heartRate < 240 then
        _updateEMA w s._smoothedHeartRate r.heartRate else s._smoothedHeartRate) ∧
    (_calculateVitals w est s)._validSpO2 = r.spo2Valid ∧
    (_calculateVitals w est s)._validHeartRate = r.heartRateValid ∧
    (_calculateVitals w est s)._rawSpO2 = r.spo2 ∧
    (_calculateVitals w est s)._rawHeartRate = r.heartRate := by
  unfold _calculateVitals
  simp only [hf, hest, Bool.not_true, Bool.false_eq_true, if_false]
  split_ifs <;> simp

theorem calculateVitals_absent (w : Nat) (est : Estimator) (s : State)
    (hf : isFingerDetected s = false) :
    _calculateVitals w est s = { s with _validSpO2 := 0, _validHeartRate := 0 } := by
  unfold _calculateVitals
  simp only [hf, Bool.not_false, if_true]

theorem update_fired (w : Nat) (p : Poll) (s : State)
    (hfire : (_collectSensorData p.samples s)._bufferReady = true ∧
      CALCULATION_INTERVAL ≤ subU32 p.millisCalc s._lastCalculation) :
    (update w p s)._smoothedSpO2 =
      (_calculateVitals w p.estimator (_collectSensorData p.samples s))._smoothedSpO2 ∧
    (update w p s)._smoothedHeartRate =
      (_calculateVitals w p.estimator (_collectSensorData p.samples s))._smoothedHeartRate ∧
    (update w p s)._validSpO2 =
      (_calculateVitals w p.estimator (_collectSensorData p.samples s))._validSpO2 ∧
    (update w p s)._validHeartRate =
      (_calculateVitals w p.estimator (_collectSensorData p.samples s))._validHeartRate ∧
    (update w p s)._lastCalculation = p.millisStamp := by
  have c4 := (collect_frame p.samples s).2.2.2.1
  have hbg : beforeGain w p s =
      { _calculateVitals w p.estimator (_collectSensorData p.samples s) with
        _lastCalculation := p.millisStamp } := by
    unfold beforeGain
    have hd : subU32 p.millisCalc (_collectSensorData p.samples s)._lastCalculation
        ≥ CALCULATION_INTERVAL := by
      rw [c4]; exact hfire.2
    simp only [hfire.1, hd, and_self, if_true]
  obtain ⟨-, -, -, -, -, a6, a7, a8, a9, a10, -⟩ :=
    adjustAutoGain_frame p.millisGain (beforeGain w p s)
  rw [update_eq]
  split_ifs
  · rw [a6, a7, a8, a9, a10, hbg]
    exact ⟨rfl, rfl, rfl, rfl, rfl⟩
  · rw [hbg]
    exact ⟨rfl, rfl, rfl, rfl, rfl⟩

/-- C12: in a calculation cycle (`_calculateVitals()`, with `r` the estimator
output) a smoothed value is changed only if the finger is present, that vital's
flag is valid and its raw value is in range (saturation 0 < raw <= 100, heart
rate 0 < raw < 240); it then becomes `_updateEMA(previous, raw)`, and
otherwise stays as it was.  With the finger present the stored flags are the
flags the estimator returned.  An `update()` whose calculation gate fires
stores exactly these values. -/
theorem calculation_cycle_smoothing (w : Nat) (est : Estimator) (s : State)
    (r : EstimatorResult) (hest : est s._irBuffer BUFFER_LENGTH s._redBuffer = r) :
    (isFingerDetected s = true →
      (_calculateVitals w est s)._smoothedSpO2 =
        (if r.spo2Valid ≠ 0 ∧ r.spo2 > 0 ∧ r.spo2 ≤ 100 then
          _updateEMA w s._smoothedSpO2 r.spo2 else s._smoothedSpO2) ∧
      (_calculateVitals w est s)._smoothedHeartRate =
        (if r.heartRateValid ≠ 0 ∧ r.heartRate > 0 ∧ r.heartRate < 240 then
          _updateEMA w s._smoothedHeartRate r.heartRate else s._smoothedHeartRate) ∧
      (_calculateVitals w est s)._validSpO2 = r.spo2Valid ∧
      (_calculateVitals w est s)._validHeartRate = r.heartRateValid) ∧
    (isFingerDetected s = false →
      (_calculateVitals w est s)._smoothedSpO2 = s._smoothedSpO2 ∧
      (_calculateVitals w est s)._smoothedHeartRate = s._smoothedHeartRate) ∧
    ((_calculateVitals w est s)._smoothedSpO2 ≠ s._smoothedSpO2 →
      isFingerDetected s = true ∧ r.spo2Valid ≠ 0 ∧ r.spo2 > 0 ∧ r.spo2 ≤ 100 ∧
      (_calculateVitals w est s)._smoothedSpO2 = _updateEMA w s._smoothedSpO2 r.spo2) ∧
    ((_calculateVitals w est s)._smoothedHeartRate ≠ s._smoothedHeartRate →
      isFingerDetected s = true ∧ r.heartRateValid ≠ 0 ∧ r.heartRate > 0 ∧ r.heartRate < 240 ∧
      (_calculateVitals w est s)._smoothedHeartRate =
        _updateEMA w s._smoothedHeartRate r.heartRate) ∧
    (∀ (p : Poll) (s0 : State), _collectSensorData p.samples s0 = s → p.estimator = est →
      s._bufferReady = true → CALCULATION_INTERVAL ≤ subU32 p.millisCalc s0._lastCalculation →
      (update w p s0)._smoothedSpO2 = (_calculateVitals w est s)._smoothedSpO2 ∧
      (update w p s0)._smoothedHeartRate = (_calculateVitals w est s)._smoothedHeartRate ∧
      (update w p s0)._validSpO2 = (_calculateVitals w est s)._validSpO2 ∧
      (update w p s0)._validHeartRate = (_calculateVitals w est s)._validHeartRate) := by
  have absent : isFingerDetected s = false →
      (_calculateVitals w est s)._smoothedSpO2 = s._smoothedSpO2 ∧
      (_calculateVitals w est s)._smoothedHeartRate = s._smoothedHeartRate := by
    intro hf
    rw [calculateVitals_absent w est s hf]
    exact ⟨rfl, rfl⟩
  refine ⟨?_, absent, ?_, ?_, ?_⟩
  · intro hf
    obtain ⟨h1, h2, h3, h4, -, -⟩ := calculateVitals_present w est s r hf hest
    exact ⟨h1, h2, h3, h4⟩
  · intro hne
    cases hf : isFingerDetected s
    · exact absurd (absent hf).1 hne
    · obtain ⟨h1, -⟩ := calculateVitals_present w est s r hf hest
      by_cases hc : r.spo2Valid ≠ 0 ∧ r.spo2 > 0 ∧ r.spo2 ≤ 100
      · rw [if_pos hc] at h1
        exact ⟨rfl, hc.1, hc.2.1, hc.2.2, h1⟩
      · rw [if_neg hc] at h1
        exact absurd h1 hne
  · intro hne
    cases hf : isFingerDetected s
    · exact absurd (absent hf).2 hne
    · obtain ⟨-, h2, -⟩ := calculateVitals_present w est s r hf hest
      by_cases hc : r.heartRateValid ≠ 0 ∧ r.heartRate > 0 ∧ r.heartRate < 240
      · rw [if_pos hc] at h2
        exact ⟨rfl, hc.1, hc.2.1, hc.2.2, h2⟩
      · rw [if_neg hc] at h2
        exact absurd h2 hne
  · intro p s0 hcol hestp hready hdue
    subst hcol
    subst hestp
    obtain ⟨u1, u2, u3, u4, -⟩ := update_fired w p s0 ⟨hready, hdue⟩
    exact ⟨u1, u2, u3, u4⟩

set_option maxRecDepth 100000 in
/-- Witness for C12: from 98 / 72, a cycle with raw 95 / 80 stores
(686 + 285) / 10 = 97 and (504 + 240) / 10 = 74. -/
theorem calculation_cycle_smoothing_witness :
    (_calculateVitals 16 (fun _ _ _ => ⟨95, 1, 80, 1⟩)
      (run 16 (construct [] []) [.begin true, .update fillPoll]))._smoothedSpO2 = 97 ∧
    (_calculateVitals 16 (fun _ _ _ => ⟨95, 1, 80, 1⟩)
      (run 16 (construct [] []) [.begin true, .update fillPoll]))._smoothedHeartRate = 74 ∧
    (_calculateVitals 16 (fun _ _ _ => ⟨95, 1, 80, 1⟩)
      (run 16 (construct [] []) [.begin true, .update fillPoll]))._smoothedSpO2 =
      (if (95 : Int) ≠ 0 ∧ (95 : Int) > 0 ∧ (95 : Int) ≤ 100 then
        _updateEMA 16
          (run 16 (construct [] []) [.begin true, .update fillPoll])._smoothedSpO2 95
        else (run 16 (construct [] []) [.begin true, .update fillPoll])._smoothedSpO2) :=
  ⟨by decide, by decide,
    ((calculation_cycle_smoothing 16 (fun _ _ _ => ⟨95, 1, 80, 1⟩)
      (run 16 (construct [] []) [.begin true, .update fillPoll])
      ⟨95, 1, 80, 1⟩ rfl).1 (by decide)).1⟩

/-! ## Out-of-range estimator output -/

theorem accessor_closed_form (s : State) :
    getSpO2 s =
      (if isFingerDetected s = true ∧ s._validSpO2 ≠ 0 ∧ s._smoothedSpO2 ≥ 0 then
        s._smoothedSpO2 else -1) ∧
    getHeartRate s =
      (if isFingerDetected s = true ∧ s._validHeartRate ≠ 0 ∧ s._smoothedHeartRate ≥ 0 then
        s._smoothedHeartRate else -1) := by
  constructor
  · unfold getSpO2
    by_cases hf : isFingerDetected s = true <;> by_cases hv : s._validSpO2 = 0 <;>
      by_cases hs : s._smoothedSpO2 < 0 <;> simp [hf, hv, hs] <;> omega
  · unfold getHeartRate
    by_cases hf : isFingerDetected s = true <;> by_cases hv : s._validHeartRate = 0 <;>
      by_cases hs : s._smoothedHeartRate < 0 <;> simp [hf, hv, hs] <;> omega

theorem calculateVitals_finger (w : Nat) (est : Estimator) (s : State) :
    isFingerDetected (_calculateVitals w est s) = isFingerDetected s := by
  unfold isFingerDetected
  rw [(calculateVitals_frame w est s).2.2.2.1]

set_option maxRecDepth 100000 in
/-- Counterexample to C13 as stated: a first cycle stored 98 / 72; in the next
cycle, with the finger present, the estimator returns heart rate 250 (>= 240)
and saturation 150 (> 100), both flagged valid.  The accessors then return the
stale 72 and 98, not -1, and both validity queries are true. -/
theorem out_of_range_counterexample :
    isFingerDetected staleReadingState = true ∧
    staleReadingState._rawHeartRate = 250 ∧ staleReadingState._rawSpO2 = 150 ∧
    getHeartRate staleReadingState = 72 ∧ getHeartRate staleReadingState ≠ -1 ∧
    isHeartRateValid staleReadingState = true ∧
    getSpO2 staleReadingState = 98 ∧ getSpO2 staleReadingState ≠ -1 ∧
    isSpO2Valid staleReadingState = true := by
  decide

/-- C13 (amended): with the finger present, a calculation cycle in which the
estimator returns a raw heart rate outside 0 < raw < 240 (resp. a raw
saturation outside 0 < raw <= 100) leaves the smoothed value as it was and
stores the estimator's flag.  `getHeartRate()` (resp. `getSpO2()`) then returns
-1 and the validity query is false when that flag is false; when the flag is
true the accessor returns the smoothed value an earlier cycle left in memory
(if there is one), and the validity query is true if that value is positive. -/
theorem out_of_range_keeps_stale_value (w : Nat) (est : Estimator) (s : State)
    (r : EstimatorResult) (hf : isFingerDetected s = true)
    (hest : est s._irBuffer BUFFER_LENGTH s._redBuffer = r) :
    (¬ (r.heartRate > 0 ∧ r.heartRate < 240) →
      (_calculateVitals w est s)._smoothedHeartRate = s._smoothedHeartRate ∧
      (_calculateVitals w est s)._validHeartRate = r.heartRateValid ∧
      (r.heartRateValid = 0 →
        getHeartRate (_calculateVitals w est s) = -1 ∧
        isHeartRateValid (_calculateVitals w est s) = false) ∧
      (r.heartRateValid ≠ 0 →
        getHeartRate (_calculateVitals w est s) =
          (if s._smoothedHeartRate ≥ 0 then s._smoothedHeartRate else -1) ∧
        isHeartRateValid (_calculateVitals w est s) = decide (s._smoothedHeartRate > 0))) ∧
    (¬ (r.spo2 > 0 ∧ r.spo2 ≤ 100) →
      (_calculateVitals w est s)._smoothedSpO2 = s._smoothedSpO2 ∧
      (_calculateVitals w est s)._validSpO2 = r.spo2Valid ∧
      (r.spo2Valid = 0 →
        getSpO2 (_calculateVitals w est s) = -1 ∧
        isSpO2Valid (_calculateVitals w est s) = false) ∧
      (r.spo2Valid ≠ 0 →
        getSpO2 (_calculateVitals w est s) =
          (if s._smoothedSpO2 ≥ 0 then s._smoothedSpO2 else -1) ∧
        isSpO2Valid (_calculateVitals w est s) = decide (s._smoothedSpO2 > 0))) := by
  obtain ⟨h1, h2, h3, h4, -, -⟩ := calculateVitals_present w est s r hf hest
  have hfc : isFingerDetected (_calculateVitals w est s) = true := by
    rw [calculateVitals_finger]; exact hf
  constructor
  · intro hout
    have hc : ¬ (r.heartRateValid ≠ 0 ∧ r.heartRate > 0 ∧ r.heartRate < 240) :=
      fun h => hout h.2
    rw [if_neg hc] at h2
    refine ⟨h2, h4, ?_, ?_⟩
    · intro h0
      simp [getHeartRate, isHeartRateValid, h4, h0]
    · intro h0
      have g := (accessor_closed_form (_calculateVitals w est s)).2
      rw [g, hfc, h4, h2]
      simp [isHeartRateValid, hfc, h4, h2, h0]
  · intro hout
    have hc : ¬ (r.spo2Valid ≠ 0 ∧ r.spo2 > 0 ∧ r.spo2 ≤ 100) :=
      fun h => hout h.2
    rw [if_neg hc] at h1
    refine ⟨h1, h3, ?_, ?_⟩
    · intro h0
      simp [getSpO2, isSpO2Valid, h3, h0]
    · intro h0
      have g := (accessor_closed_form (_calculateVitals w est s)).1
      rw [g, hfc, h3, h1]
      simp [isSpO2Valid, hfc, h3, h1, h0]

set_option maxRecDepth 100000 in
/-- Witness for C13: after a cycle stored 98 / 72, an estimator output of -999
flagged invalid makes `getHeartRate()` return -1, while 72 stays in memory. -/
theorem out_of_range_keeps_stale_value_witness :
    isFingerDetected (run 16 (construct [] []) [.begin true, .update fillPoll]) = true ∧
    (_calculateVitals 16 (fun _ _ _ => ⟨-999, 0, -999, 0⟩)
      (run 16 (construct [] []) [.begin true, .update fillPoll]))._smoothedHeartRate = 72 ∧
    (getHeartRate (_calculateVitals 16 (fun _ _ _ => ⟨-999, 0, -999, 0⟩)
        (run 16 (construct [] []) [.begin true, .update fillPoll])) = -1 ∧
      isHeartRateValid (_calculateVitals 16 (fun _ _ _ => ⟨-999, 0, -999, 0⟩)
        (run 16 (construct [] []) [.begin true, .update fillPoll])) = false) :=
  ⟨by decide, by decide,
    ((out_of_range_keeps_stale_value 16 (fun _ _ _ => ⟨-999, 0, -999, 0⟩)
      (run 16 (construct [] []) [.begin true, .update fillPoll])
      ⟨-999, 0, -999, 0⟩ (by decide) rfl).1 (by decide)).2.2.1 rfl⟩

/-! ## Interval gates -/

theorem update_not_fired (w : Nat) (p : Poll) (s : State)
    (hno : ¬ ((_collectSensorData p.samples s)._bufferReady = true ∧
      CALCULATION_INTERVAL ≤ subU32 p.millisCalc s._lastCalculation)) :
    (update w p s)._smoothedSpO2 = s._smoothedSpO2 ∧
    (update w p s)._smoothedHeartRate = s._smoothedHeartRate ∧
    (update w p s)._validSpO2 = s._validSpO2 ∧
    (update w p s)._validHeartRate = s._validHeartRate ∧
    (update w p s)._lastCalculation = s._lastCalculation := by
  obtain ⟨-, -, -, c4, c5, c6, c7, c8⟩ := collect_frame p.samples s
  have hb : beforeGain w p s = _collectSensorData p.samples s := by
    unfold beforeGain
    have hd : ¬ ((_collectSensorData p.samples s)._bufferReady = true ∧
        subU32 p.millisCalc (_collectSensorData p.samples s)._lastCalculation
          ≥ CALCULATION_INTERVAL) := by
      rw [c4]; exact hno
    simp only [hd, if_false]
  obtain ⟨-, -, -, -, -, a6, a7, a8, a9, a10, -⟩ :=
    adjustAutoGain_frame p.millisGain (_collectSensorData p.samples s)
  rw [update_eq, hb]
  split_ifs
  · rw [a6, a7, a8, a9, a10]; exact ⟨c5, c6, c7, c8, c4⟩
  · exact ⟨c5, c6, c7, c8, c4⟩

theorem subU32_elapsed (lastFired d : Nat) (hl : lastFired < 4294967296)
    (hd : d < 4294967296) : subU32 ((lastFired + d) % 4294967296) lastFired = d := by
  unfold subU32
  omega

/-- C14: for 32-bit timestamps, let `d < 2^32` milliseconds have elapsed since
the gate last fired and `now = (lastFired + d) mod 2^32`.  Then the unsigned
difference `now - lastFired` is `d`, so each gate test is true exactly when
`d >= interval`.  In `_adjustAutoGain()` (and in `update()` with auto-gain
enabled) the brightness and the stamp are those of the controller rules when
`d >= 800` and are left alone when `d < 800`; where a rule applies, the
brightness changes exactly when `d >= 800`.  In `update()` with the buffer
ready the calculation runs and is stamped exactly when `d >= 1000`. -/
theorem gates_correct_across_overflow (lastFired d now : Nat) (hl : lastFired < 4294967296)
    (hd : d < 4294967296) (hnow : now = (lastFired + d) % 4294967296) :
    subU32 now lastFired = d ∧
    (CALCULATION_INTERVAL ≤ subU32 now lastFired ↔ 1000 ≤ d) ∧
    (GAIN_ADJUSTMENT_INTERVAL ≤ subU32 now lastFired ↔ 800 ≤ d) ∧
    (∀ s : State, s._lastGainAdjustment = lastFired →
      (d < 800 → _adjustAutoGain now s = s) ∧
      (_adjustAutoGain now s)._currentLEDBrightness =
        (if d < 800 then s._currentLEDBrightness
        else if isFingerDetected s = false then s._currentLEDBrightness
        else if s._lastIR < IR_TARGET_LOW ∧ s._currentLEDBrightness < LED_MAX then
          (if (s._currentLEDBrightness + LED_STEP) % 256 > LED_MAX then LED_MAX
            else (s._currentLEDBrightness + LED_STEP) % 256)
        else if s._lastIR > IR_TARGET_HIGH ∧ s._currentLEDBrightness > LED_MIN then
          (if (s._currentLEDBrightness : Int) - (LED_STEP : Int) < (LED_MIN : Int) then LED_MIN
            else toByte ((s._currentLEDBrightness : Int) - (LED_STEP : Int)))
        else s._currentLEDBrightness) ∧
      (_adjustAutoGain now s)._lastGainAdjustment =
        (if d < 800 then lastFired
        else if isFingerDetected s = false then lastFired
        else if s._lastIR < IR_TARGET_LOW ∧ s._currentLEDBrightness < LED_MAX then now
        else if s._lastIR > IR_TARGET_HIGH ∧ s._currentLEDBrightness > LED_MIN then now
        else lastFired) ∧
      (FINGER_THRESHOLD ≤ s._lastIR →
        ((s._lastIR < IR_TARGET_LOW ∧ s._currentLEDBrightness < LED_MAX) ∨
          (s._lastIR > IR_TARGET_HIGH ∧ s._currentLEDBrightness > LED_MIN)) →
        ((_adjustAutoGain now s)._currentLEDBrightness ≠ s._currentLEDBrightness ↔
          800 ≤ d))) ∧
    (∀ (w : Nat) (p : Poll) (s : State), s._autoGainEnabled = true →
      s._lastGainAdjustment = lastFired → p.millisGain = now →
      FINGER_THRESHOLD ≤ (_collectSensorData p.samples s)._lastIR →
      (((_collectSensorData p.samples s)._lastIR < IR_TARGET_LOW ∧
          s._currentLEDBrightness < LED_MAX) ∨
        ((_collectSensorData p.samples s)._lastIR > IR_TARGET_HIGH ∧
          s._currentLEDBrightness > LED_MIN)) →
      ((update w p s)._currentLEDBrightness ≠ s._currentLEDBrightness ↔ 800 ≤ d)) ∧
    (∀ (w : Nat) (p : Poll) (s : State), s._lastCalculation = lastFired →
      p.millisCalc = now →
      (_collectSensorData p.samples s)._bufferReady = true →
      (update w p s)._lastCalculation = (if 1000 ≤ d then p.millisStamp else lastFired) ∧
      (1000 ≤ d →
        (update w p s)._smoothedSpO2 =
          (_calculateVitals w p.estimator (_collectSensorData p.samples s))._smoothedSpO2 ∧
        (update w p s)._smoothedHeartRate =
          (_calculateVitals w p.estimator (_collectSensorData p.samples s))._smoothedHeartRate ∧
        (update w p s)._validSpO2 =
          (_calculateVitals w p.estimator (_collectSensorData p.samples s))._validSpO2 ∧
        (update w p s)._validHeartRate =
          (_calculateVitals w p.estimator (_collectSensorData p.samples s))._validHeartRate) ∧
      (d < 1000 →
        (update w p s)._smoothedSpO2 = s._smoothedSpO2 ∧
        (update w p s)._smoothedHeartRate = s._smoothedHeartRate ∧
        (update w p s)._validSpO2 = s._validSpO2 ∧
        (update w p s)._validHeartRate = s._validHeartRate)) := by
  have he : subU32 now lastFired = d := by
    rw [hnow]; exact subU32_elapsed lastFired d hl hd
  have gain : ∀ s : State, s._lastGainAdjustment = lastFired →
      FINGER_THRESHOLD ≤ s._lastIR →
      ((s._lastIR < IR_TARGET_LOW ∧ s._currentLEDBrightness < LED_MAX) ∨
        (s._lastIR > IR_TARGET_HIGH ∧ s._currentLEDBrightness > LED_MIN)) →
      ((_adjustAutoGain now s)._currentLEDBrightness ≠ s._currentLEDBrightness ↔
        800 ≤ d) := by
    intro s hs hfin hcond
    have hf : ¬ isFingerDetected s = false := by
      simp only [isFingerDetected, decide_eq_false_iff_not, not_not]; exact hfin
    rw [adjustAutoGain_brightness, hs, he]
    simp only [LED_MAX, LED_STEP, LED_MIN, IR_TARGET_LOW, IR_TARGET_HIGH,
      GAIN_ADJUSTMENT_INTERVAL, toByte, if_neg hf] at hcond ⊢
    by_cases hd8 : d < 800
    · rw [if_pos hd8]
      constructor
      · intro hne; exact absurd rfl hne
      · intro hge; omega
    · rw [if_neg hd8]
      constructor
      · intro _; omega
      · intro _
        split_ifs <;> omega
  refine ⟨he, ?_, ?_, ?_, ?_, ?_⟩
  · rw [he, CALCULATION_INTERVAL]
  · rw [he, GAIN_ADJUSTMENT_INTERVAL]
  · intro s hs
    refine ⟨?_, ?_, ?_, gain s hs⟩
    · intro hlt
      unfold _adjustAutoGain
      rw [hs, he, GAIN_ADJUSTMENT_INTERVAL, if_pos hlt]
    · rw [adjustAutoGain_brightness, hs, he, GAIN_ADJUSTMENT_INTERVAL]
    · rw [adjustAutoGain_stamp, hs, he, GAIN_ADJUSTMENT_INTERVAL]
  · intro w p s hauto hs hp hfin hcond
    obtain ⟨t, t1, t2, t3, t4, -⟩ := update_gain_fields w p s
    rw [t4, hauto, if_pos rfl, hp]
    have := gain t (by rw [t2]; exact hs) (by rw [t3]; exact hfin)
      (by rw [t3, t1]; exact hcond)
    rw [t1] at this
    exact this
  · intro w p s hs hp hready
    have hdue : CALCULATION_INTERVAL ≤ subU32 p.millisCalc s._lastCalculation ↔ 1000 ≤ d := by
      rw [hs, hp, he, CALCULATION_INTERVAL]
    refine ⟨?_, ?_, ?_⟩
    · by_cases h : 1000 ≤ d
      · rw [if_pos h]
        exact (update_fired w p s ⟨hready, hdue.mpr h⟩).2.2.2.2
      · rw [if_neg h, ← hs]
        exact (update_not_fired w p s (fun hc => h (hdue.mp hc.2))).2.2.2.2
    · intro h
      obtain ⟨u1, u2, u3, u4, -⟩ := update_fired w p s ⟨hready, hdue.mpr h⟩
      exact ⟨u1, u2, u3, u4⟩
    · intro h
      obtain ⟨n1, n2, n3, n4, -⟩ :=
        update_not_fired w p s (fun hc => absurd (hdue.mp hc.2) (by omega))
      exact ⟨n1, n2, n3, n4⟩

/-- Witness for C14: the gain gate fired at 4294967000 (brightness 225), 296 ms
before the counter overflows.  500 ms later the clock reads 204 and nothing
changes; 1000 ms later it reads 704, the unsigned difference is 1000 and the
brightness becomes 230. -/
theorem gates_correct_across_overflow_witness :
    preOverflowState._lastGainAdjustment = 4294967000 ∧
    preOverflowState._currentLEDBrightness = 225 ∧
    subU32 704 4294967000 = 1000 ∧
    (_adjustAutoGain 204 preOverflowState)._currentLEDBrightness = 225 ∧
    (_adjustAutoGain 704 preOverflowState)._currentLEDBrightness = 230 ∧
    ((_adjustAutoGain 704 preOverflowState)._currentLEDBrightness ≠
      preOverflowState._currentLEDBrightness ↔ 800 ≤ 1000) :=
  ⟨by decide, by decide, by decide, by decide, by decide,
    ((gates_correct_across_overflow 4294967000 1000 704 (by decide) (by decide)
      (by decide)).2.2.2.1 preOverflowState (by decide)).2.2.2 (by decide)
      (Or.inl (by decide))⟩

/-! ## Contents of the rolling buffer -/

theorem pushSample_buffers (s : State) (x : Sample) :
    (pushSample s x)._irBuffer = writeSlot s._irBuffer s._bufferHead x.ir ∧
    (pushSample s x)._redBuffer = writeSlot s._redBuffer s._bufferHead x.red := by
  unfold pushSample
  dsimp only
  split <;> exact ⟨rfl, rfl⟩

theorem bufferHolds_push (s : State) (xs : List Sample) (x : Sample)
    (h : BufferHolds s xs) : BufferHolds (pushSample s x) (xs ++ [x]) := by
  obtain ⟨hh, hli, hlr, hlast, hzero⟩ := h
  obtain ⟨bi, br⟩ := pushSample_buffers s x
  have hc := (pushSample_cursor s x).1
  have hw : ∀ (buf : List Nat) (v : Nat),
      writeSlot buf s._bufferHead v = buf.set (xs.length % 100) v := by
    intro buf v
    unfold writeSlot
    rw [hh, if_pos (by omega), Int.toNat_ofNat]
  have hmod : xs.length % 100 < 100 := Nat.mod_lt _ (by omega)
  refine ⟨?_, ?_, ?_, ?_, ?_⟩
  · rw [hc, hh, BUFFER_LENGTH, Int.tmod_eq_emod (by omega) (by omega), List.length_append,
      List.length_singleton]
    omega
  · rw [bi, hw, List.length_set]; exact hli
  · rw [br, hw, List.length_set]; exact hlr
  · intro j hj hwin
    rw [List.length_append, List.length_singleton] at hj hwin
    rw [bi, br, hw, hw]
    by_cases hjn : j = xs.length
    · subst hjn
      rw [List.getElem?_set_self (by omega), List.getElem?_set_self (by omega),
        List.getElem?_concat_length]
      exact ⟨rfl, rfl⟩
    · have hne : xs.length % 100 ≠ j % 100 := by omega
      rw [List.getElem?_set_ne hne, List.getElem?_set_ne hne,
        List.getElem?_append_left (by omega)]
      exact hlast j (by omega) (by omega)
  · intro i hi hk
    rw [List.length_append, List.length_singleton] at hk
    rw [bi, br, hw, hw]
    have hne : xs.length % 100 ≠ i := by omega
    rw [List.getElem?_set_ne hne, List.getElem?_set_ne hne]
    exact hzero i hi (by omega)

theorem bufferHolds_collect (ys : List Sample) (s : State) (xs : List Sample)
    (h : BufferHolds s xs) : BufferHolds (_collectSensorData ys s) (xs ++ ys) := by
  induction ys generalizing s xs with
  | nil => simpa [_collectSensorData] using h
  | cons y ys ih =>
    have h2 := ih (pushSample s y) (xs ++ [y]) (bufferHolds_push s xs y h)
    simpa [_collectSensorData] using h2

theorem bufferHolds_reset (s0 : State) : BufferHolds (reset s0) [] := by
  refine ⟨rfl, ?_, ?_, ?_, ?_⟩
  · simp [reset, BUFFER_LENGTH]
  · simp [reset, BUFFER_LENGTH]
  · intro j hj
    simp at hj
  · intro i hi _
    simp only [reset, BUFFER_LENGTH, List.getElem?_replicate, if_pos hi, and_self]

theorem bufferHolds_of_eq (s t : State) (xs : List Sample) (h : BufferHolds s xs)
    (e1 : t._bufferHead = s._bufferHead) (e2 : t._irBuffer = s._irBuffer)
    (e3 : t._redBuffer = s._redBuffer) : BufferHolds t xs := by
  unfold BufferHolds at h ⊢
  rw [e1, e2, e3]
  exact h

theorem bufferHolds_update (w : Nat) (p : Poll) (s : State) (xs : List Sample)
    (h : BufferHolds s xs) : BufferHolds (update w p s) (xs ++ p.samples) := by
  have hc := bufferHolds_collect p.samples s xs h
  have hbg : (beforeGain w p s)._bufferHead = (_collectSensorData p.samples s)._bufferHead ∧
      (beforeGain w p s)._irBuffer = (_collectSensorData p.samples s)._irBuffer ∧
      (beforeGain w p s)._redBuffer = (_collectSensorData p.samples s)._redBuffer := by
    obtain ⟨-, -, -, -, -, f6, f7, f8⟩ :=
      calculateVitals_frame w p.estimator (_collectSensorData p.samples s)
    unfold beforeGain
    dsimp only
    split_ifs
    · exact ⟨f6, f7, f8⟩
    · exact ⟨rfl, rfl, rfl⟩
  obtain ⟨a1, -, a3, a4, -⟩ := adjustAutoGain_frame p.millisGain (beforeGain w p s)
  rw [update_eq]
  split_ifs
  · exact bufferHolds_of_eq _ _ _ hc (a1.trans hbg.1) (a3.trans hbg.2.1) (a4.trans hbg.2.2)
  · exact bufferHolds_of_eq _ _ _ hc hbg.1 hbg.2.1 hbg.2.2

theorem bufferHolds_run (w : Nat) (calls : List Call) (s : State) (xs : List Sample)
    (hno : ∀ c ∈ calls, c.restarts = false) (h : BufferHolds s xs) :
    BufferHolds (run w s calls) (xs ++ pushedSamples calls) := by
  induction calls generalizing s xs with
  | nil => simpa [run, pushedSamples] using h
  | cons c cs ih =>
    have hc : c.restarts = false := hno c (List.mem_cons_self _ _)
    have hcs : ∀ d ∈ cs, d.restarts = false := fun d hd => hno d (List.mem_cons_of_mem _ hd)
    cases c with
    | update p =>
      have h2 := ih (update w p s) (xs ++ p.samples) hcs (bufferHolds_update w p s xs h)
      simpa [run, pushedSamples, Call.apply] using h2
    | reset => simp [Call.restarts] at hc
    | setAutoGain enabled =>
      have h2 := ih (setAutoGain enabled s) xs hcs h
      simpa [run, pushedSamples, Call.apply] using h2
    | begin sensorFound =>
      simp only [Call.restarts] at hc
      subst hc
      have h2 := ih s xs hcs h
      simpa [run, pushedSamples, Call.apply, begin] using h2

/-- C15: let `xs` be the samples pushed since the last `reset()` (over any
calls without a restart) and `k` their number.  The write cursor is `k mod
100`, within 0..99, and both arrays keep their 100 slots, so every store is in
bounds.  Each of the last 100 pushes `j` (k - 100 <= j < k) sits in slot
`j mod 100`; hence for k >= 100 every slot `i` holds the most recent push
with index congruent to `i`, and for k < 100 slots 0..k-1 hold the pushes in
order while the slots from k on hold 0. -/
theorem buffer_holds_last_hundred (w : Nat) (s0 s : State) (calls : List Call)
    (xs : List Sample) (hno : ∀ c ∈ calls, c.restarts = false)
    (hs : s = run w (reset s0) calls) (hx : xs = pushedSamples calls) :
    s._bufferHead = ((xs.length % 100 : Nat) : Int) ∧
    (0 ≤ s._bufferHead ∧ s._bufferHead < 100) ∧
    (s._irBuffer.length = 100 ∧ s._redBuffer.length = 100) ∧
    (∀ j, j < xs.length → xs.length ≤ j + 100 →
      s._irBuffer[j % 100]? = (xs[j]?).map Sample.ir ∧
      s._redBuffer[j % 100]? = (xs[j]?).map Sample.red) ∧
    (100 ≤ xs.length → ∀ i, i < 100 →
      ∃ j, j < xs.length ∧ j % 100 = i ∧ (∀ j2, j2 < xs.length → j2 % 100 = i → j2 ≤ j) ∧
        s._irBuffer[i]? = (xs[j]?).map Sample.ir ∧
        s._redBuffer[i]? = (xs[j]?).map Sample.red) ∧
    (xs.length < 100 → ∀ i, i < 100 →
      (i < xs.length →
        s._irBuffer[i]? = (xs[i]?).map Sample.ir ∧
        s._redBuffer[i]? = (xs[i]?).map Sample.red) ∧
      (xs.length ≤ i → s._irBuffer[i]? = some 0 ∧ s._redBuffer[i]? = some 0)) := by
  have h := bufferHolds_run w calls (reset s0) [] hno (bufferHolds_reset s0)
  rw [List.nil_append, ← hs, ← hx] at h
  obtain ⟨hh, hli, hlr, hlast, hzero⟩ := h
  refine ⟨hh, ⟨by omega, by omega⟩, ⟨hli, hlr⟩, hlast, ?_, ?_⟩
  · intro hk i hi
    refine ⟨i + 100 * ((xs.length - 1 - i) / 100), by omega, by omega, ?_, ?_⟩
    · intro j2 hj2 hm
      omega
    · have e : (i + 100 * ((xs.length - 1 - i) / 100)) % 100 = i := by omega
      have := hlast (i + 100 * ((xs.length - 1 - i) / 100)) (by omega) (by omega)
      rw [e] at this
      exact this
  · intro hk i hi
    refine ⟨?_, hzero i hi⟩
    intro hik
    have := hlast i hik (by omega)
    rw [Nat.mod_eq_of_lt hi] at this
    exact this

set_option maxRecDepth 100000 in
/-- Witness for C15: 100 samples with infrared 30000 and then one with infrared
20000: the cursor is 1, slot 0 holds the 101st sample and slot 1 the 2nd. -/
theorem buffer_holds_last_hundred_witness :
    (pushedSamples [Call.update fillPoll, Call.update weakSignalPoll]).length = 101 ∧
    (run 16 (reset weakSignalState)
      [Call.update fillPoll, Call.update weakSignalPoll])._irBuffer[0]? = some 20000 ∧
    (run 16 (reset weakSignalState)
      [Call.update fillPoll, Call.update weakSignalPoll])._irBuffer[1]? = some 30000 ∧
    (run 16 (reset weakSignalState)
      [Call.update fillPoll, Call.update weakSignalPoll])._bufferHead =
      (((pushedSamples [Call.update fillPoll, Call.update weakSignalPoll]).length % 100 : Nat)
        : Int) :=
  ⟨by decide, by decide, by decide,
    (buffer_holds_last_hundred 16 weakSignalState _
      [Call.update fillPoll, Call.update weakSignalPoll] _
      (by simp [Call.restarts]) rfl rfl).1⟩

/-- C16: an `update()` marks the calculation gate fired (stores `millis()` in
`_lastCalculation`) when, after draining the samples, the buffer is ready and
`now - _lastCalculation >= 1000`, whether or not a finger is present; on every
other `update()` the last-calculation timestamp, both validity flags and both
smoothed values are unchanged, and the result does not depend on the
estimator (it is not invoked). -/
theorem calculation_gate_fires_exactly (w : Nat) (p : Poll) (s : State) :
    (((_collectSensorData p.samples s)._bufferReady = true ∧
        CALCULATION_INTERVAL ≤ subU32 p.millisCalc s._lastCalculation) →
      (update w p s)._lastCalculation = p.millisStamp ∧
      (isFingerDetected (_collectSensorData p.samples s) = false →
        (update w p s)._validSpO2 = 0 ∧ (update w p s)._validHeartRate = 0 ∧
        (update w p s)._smoothedSpO2 = s._smoothedSpO2 ∧
        (update w p s)._smoothedHeartRate = s._smoothedHeartRate)) ∧
    (¬ ((_collectSensorData p.samples s)._bufferReady = true ∧
        CALCULATION_INTERVAL ≤ subU32 p.millisCalc s._lastCalculation) →
      (update w p s)._lastCalculation = s._lastCalculation ∧
      (update w p s)._validSpO2 = s._validSpO2 ∧
      (update w p s)._validHeartRate = s._validHeartRate ∧
      (update w p s)._smoothedSpO2 = s._smoothedSpO2 ∧
      (update w p s)._smoothedHeartRate = s._smoothedHeartRate ∧
      (update w p s)._rawSpO2 = s._rawSpO2 ∧
      (update w p s)._rawHeartRate = s._rawHeartRate ∧
      ∀ e : Estimator, update w { p with estimator := e } s = update w p s) := by
  constructor
  · intro hfire
    obtain ⟨u1, u2, u3, u4, u5⟩ := update_fired w p s hfire
    refine ⟨u5, ?_⟩
    intro hf
    obtain ⟨-, -, -, -, c5, c6, -, -⟩ := collect_frame p.samples s
    rw [u1, u2, u3, u4, calculateVitals_absent w p.estimator _ hf]
    exact ⟨rfl, rfl, c5, c6⟩
  · intro hno
    obtain ⟨n1, n2, n3, n4, n5⟩ := update_not_fired w p s hno
    have c4 := (collect_frame p.samples s).2.2.2.1
    have hd : ¬ ((_collectSensorData p.samples s)._bufferReady = true ∧
        subU32 p.millisCalc (_collectSensorData p.samples s)._lastCalculation
          ≥ CALCULATION_INTERVAL) := by
      rw [c4]; exact hno
    have hraw : ∀ (xs : List Sample) (t : State),
        (_collectSensorData xs t)._rawSpO2 = t._rawSpO2 ∧
        (_collectSensorData xs t)._rawHeartRate = t._rawHeartRate := by
      intro xs
      induction xs with
      | nil => intro t; exact ⟨rfl, rfl⟩
      | cons x xs ih =>
        intro t
        have h := ih (pushSample t x)
        have hp : (pushSample t x)._rawSpO2 = t._rawSpO2 ∧
            (pushSample t x)._rawHeartRate = t._rawHeartRate := by
          unfold pushSample
          dsimp only
          split <;> exact ⟨rfl, rfl⟩
        simp only [_collectSensorData, List.foldl_cons] at h ⊢
        exact ⟨h.1.trans hp.1, h.2.trans hp.2⟩
    have hadj : ∀ (now : Nat) (t : State),
        (_adjustAutoGain now t)._rawSpO2 = t._rawSpO2 ∧
        (_adjustAutoGain now t)._rawHeartRate = t._rawHeartRate := by
      intro now t
      unfold _adjustAutoGain
      dsimp only
      split_ifs <;> exact ⟨rfl, rfl⟩
    have hupd : update w p s =
        if (_collectSensorData p.samples s)._autoGainEnabled then
          _adjustAutoGain p.millisGain (_collectSensorData p.samples s)
        else _collectSensorData p.samples s := by
      unfold update
      simp only [hd, if_false]
    refine ⟨n5, n3, n4, n1, n2, ?_, ?_, ?_⟩
    · rw [hupd]
      split_ifs
      · rw [(hadj _ _).1, (hraw _ _).1]
      · exact (hraw _ _).1
    · rw [hupd]
      split_ifs
      · rw [(hadj _ _).2, (hraw _ _).2]
      · exact (hraw _ _).2
    · intro e
      rw [hupd]
      unfold update
      simp only [hd, if_false]

/-- Witness for C16: a poll 100 ms after a calculation is not due and keeps
the stamp 5000; the poll at 6000 ms, with the buffer ready, stamps 6000. -/
theorem calculation_gate_fires_exactly_witness :
    (update 16 fingerLiftedPoll
      { construct [] [] with _bufferReady := true, _lastCalculation := 5000 })._lastCalculation
      = 5000 ∧
    (update 16 outOfRangePoll
      { construct [] [] with _bufferReady := true, _lastCalculation := 5000 })._lastCalculation
      = outOfRangePoll.millisStamp :=
  ⟨by decide,
    ((calculation_gate_fires_exactly 16 outOfRangePoll
      { construct [] [] with _bufferReady := true, _lastCalculation := 5000 }).1
      (by decide)).1⟩

/-! ## Repeated identical input to the smoothing filter -/

theorem updateEMA_step (w : Nat) (hw : 16 ≤ w) (x v : Int) (hx : 0 ≤ x) (hv : 0 ≤ v)
    (hfit : 7 * x + 3 * v < 2 ^ (w - 1)) :
    _updateEMA w x v = (7 * x + 3 * v) / 10 := by
  have hpow := pow_ge_of_sixteen w hw
  rw [updateEMA_of_fits w (by omega) x v hx ⟨by omega, hfit⟩,
    Int.tdiv_eq_ediv (by omega) (by omega)]

theorem emaIterate_settles (w : Nat) (v B : Int) (hv : 0 < v ∧ v < 240) (hB : 2400 ≤ B)
    (hstep : ∀ x : Int, 0 ≤ x → 7 * x + 3 * v < B → _updateEMA w x v = (7 * x + 3 * v) / 10)
    (m : Nat) :
    ∀ x : Int, 0 ≤ x → 7 * x + 3 * v < B → (x - v).natAbs ≤ m →
      ∃ n, v - 3 ≤ emaIterate w v n x ∧ emaIterate w v n x ≤ v ∧
        _updateEMA w (emaIterate w v n x) v = emaIterate w v n x ∧
        (v ≤ x → emaIterate w v n x = v) := by
  induction m with
  | zero =>
    intro x hx hfit hm
    have hxv : x = v := by omega
    refine ⟨0, ?_, ?_, ?_, ?_⟩
    · simp only [emaIterate]; omega
    · simp only [emaIterate]; omega
    · simp only [emaIterate]
      rw [hstep x hx hfit]; omega
    · intro _; simp only [emaIterate]; exact hxv
  | succ m ih =>
    intro x hx hfit hm
    by_cases hnear : v - 3 ≤ x ∧ x ≤ v
    · refine ⟨0, ?_, ?_, ?_, ?_⟩
      · simp only [emaIterate]; exact hnear.1
      · simp only [emaIterate]; exact hnear.2
      · simp only [emaIterate]
        rw [hstep x hx hfit]; omega
      · intro hge; simp only [emaIterate]; omega
    · have hs := hstep x hx hfit
      obtain ⟨n, h1, h2, h3, h4⟩ := ih ((7 * x + 3 * v) / 10) (by omega) (by omega) (by omega)
      refine ⟨n + 1, ?_, ?_, ?_, ?_⟩
      · simp only [emaIterate]; rw [hs]; exact h1
      · simp only [emaIterate]; rw [hs]; exact h2
      · simp only [emaIterate]; rw [hs]; exact h3
      · intro hge
        simp only [emaIterate]; rw [hs]
        exact h4 (by omega)

/-- Counterexample to C17 as stated: from the smoothed value 95 with raw value
98, one application gives (665 + 294) / 10 = 95 again, so no number of
applications yields 98. -/
theorem ema_stalls_below_raw :
    _updateEMA 16 95 98 = 95 ∧ ¬ ∃ n, emaIterate 16 98 n 95 = 98 := by
  have h1 : _updateEMA 16 95 98 = 95 := by decide
  refine ⟨h1, ?_⟩
  have hall : ∀ n, emaIterate 16 98 n 95 = 95 := by
    intro n
    induction n with
    | zero => rfl
    | succ n ih => simp only [emaIterate, h1]; exact ih
  rintro ⟨n, hn⟩
  rw [hall n] at hn
  exact absurd hn (by decide)

/-- C17 (amended): for every smoothed value s >= 0 and raw value v in the sane
range (0 < v < 240), with 7 s + 3 v fitting in `int`, there is an n such
that applying `_updateEMA(., v)` n times starting from s yields a fixed point
x with v - 3 <= x <= v, and exactly v whenever s >= v; v itself is a fixed
point, as are v - 1, v - 2 and v - 3 when not negative; a single application
does not in general yield v (from 100 with raw 50 it yields 85). -/
theorem ema_settles_within_three (w : Nat) (hw : 16 ≤ w) (s v : Int) (hs : 0 ≤ s)
    (hv : 0 < v ∧ v < 240) (hfit : 7 * s + 3 * v < 2 ^ (w - 1)) :
    (∃ n, v - 3 ≤ emaIterate w v n s ∧ emaIterate w v n s ≤ v ∧
      _updateEMA w (emaIterate w v n s) v = emaIterate w v n s ∧
      (v ≤ s → emaIterate w v n s = v)) ∧
    _updateEMA w v v = v ∧
    (v - 3 ≤ s → s ≤ v → _updateEMA w s v = s) ∧
    _updateEMA w 100 50 = 85 := by
  have hpow := pow_ge_of_sixteen w hw
  have hstep : ∀ x : Int, 0 ≤ x → 7 * x + 3 * v < 2 ^ (w - 1) →
      _updateEMA w x v = (7 * x + 3 * v) / 10 :=
    fun x hx hf => updateEMA_step w hw x v hx (by omega) hf
  refine ⟨?_, ?_, ?_, ?_⟩
  · exact emaIterate_settles w v (2 ^ (w - 1)) hv (by omega) hstep (s - v).natAbs s hs hfit
      (le_refl _)
  · rw [hstep v (by omega) (by omega)]; omega
  · intro h1 h2
    rw [hstep s hs hfit]; omega
  · rw [updateEMA_step w hw 100 50 (by omega) (by omega) (by omega)]; decide

/-- Witness for C17: from 0 with raw 100 the filter settles at 97 after 11
applications; from 240 with raw 100 it reaches 100. -/
theorem ema_settles_within_three_witness :
    emaIterate 16 100 11 0 = 97 ∧ _updateEMA 16 97 100 = 97 ∧
    emaIterate 16 100 12 240 = 100 ∧
    _updateEMA 16 100 100 = 100 :=
  ⟨by decide, by decide, by decide,
    (ema_settles_within_three 16 (by decide) 0 100 (by decide) (by decide) (by decide)).2.1⟩

/-! ## Cooldown between adjustments -/

theorem update_change_cases (w : Nat) (p : Poll) (s : State) :
    ((update w p s)._currentLEDBrightness ≠ s._currentLEDBrightness →
      GAIN_ADJUSTMENT_INTERVAL ≤ subU32 p.millisGain s._lastGainAdjustment ∧
      (update w p s)._lastGainAdjustment = p.millisGain) ∧
    ((update w p s)._currentLEDBrightness = s._currentLEDBrightness →
      (update w p s)._lastGainAdjustment = s._lastGainAdjustment) := by
  obtain ⟨t, t1, t2, t3, t4, t5⟩ := update_gain_fields w p s
  rw [t4, t5, adjustAutoGain_brightness, adjustAutoGain_stamp, t1, t2]
  simp only [LED_MAX, LED_STEP, LED_MIN, GAIN_ADJUSTMENT_INTERVAL, toByte]
  cases hauto : s._autoGainEnabled
  · simp
  · simp only [if_true]
    constructor
    · split_ifs <;> intro hne <;>
        first
        | exact absurd rfl hne
        | exact ⟨by omega, rfl⟩
    · split_ifs <;> intro heq <;>
        first
        | rfl
        | omega

theorem changeTimes_spaced (w : Nat) (ps : List Poll) (s : State)
    (hs : s._lastGainAdjustment < 4294967296)
    (hmono : (ps.map Poll.millisGain).Pairwise fun a b => a ≤ b)
    (hbound : ∀ p ∈ ps, s._lastGainAdjustment ≤ p.millisGain ∧ p.millisGain < 4294967296) :
    (changeTimes w s ps).Pairwise (fun a b => a + 800 ≤ b) ∧
    ∀ t ∈ changeTimes w s ps, s._lastGainAdjustment + 800 ≤ t := by
  induction ps generalizing s with
  | nil => simp [changeTimes]
  | cons p ps ih =>
    simp only [List.map_cons, List.pairwise_cons, List.mem_map, forall_exists_index,
      and_imp, forall_apply_eq_imp_iff₂] at hmono
    obtain ⟨hp1, hp2⟩ := hbound p (List.mem_cons_self _ _)
    obtain ⟨hch, hsame⟩ := update_change_cases w p s
    simp only [changeTimes]
    by_cases hc : (update w p s)._currentLEDBrightness ≠ s._currentLEDBrightness
    · obtain ⟨hdue, hstamp⟩ := hch hc
      have hgap : s._lastGainAdjustment + 800 ≤ p.millisGain := by
        simp only [GAIN_ADJUSTMENT_INTERVAL, subU32] at hdue
        omega
      obtain ⟨i1, i2⟩ := ih (update w p s) (by rw [hstamp]; exact hp2) hmono.2
        (fun q hq => by
          rw [hstamp]
          exact ⟨hmono.1 q hq, (hbound q (List.mem_cons_of_mem _ hq)).2⟩)
      rw [hstamp] at i2
      rw [if_pos hc, List.singleton_append]
      refine ⟨List.pairwise_cons.mpr ⟨i2, i1⟩, ?_⟩
      intro t ht
      rcases List.mem_cons.mp ht with h | h
      · rw [h]; exact hgap
      · have := i2 t h; omega
    · have heq := hsame (not_not.mp hc)
      obtain ⟨i1, i2⟩ := ih (update w p s) (by rw [heq]; exact hs) hmono.2
        (fun q hq => by
          rw [heq]
          exact hbound q (List.mem_cons_of_mem _ hq))
      rw [heq] at i2
      rw [if_neg hc, List.nil_append]
      exact ⟨i1, i2⟩

/-- C18: along every sequence of `update()` calls on a newly constructed
object whose clock readings (`millis()` in `_adjustAutoGain()`) do not
decrease and stay below 2^32, any two updates that change the brightness are
at least 800 ms apart, and no update changes the brightness before the clock
reads 800. -/
theorem adjustments_respect_cooldown (w : Nat) (irMem redMem : List Nat) (ps : List Poll)
    (hmono : (ps.map Poll.millisGain).Pairwise fun a b => a ≤ b)
    (hbound : ∀ p ∈ ps, p.millisGain < 4294967296) :
    (changeTimes w (construct irMem redMem) ps).Pairwise (fun a b => a + 800 ≤ b) ∧
    ∀ t ∈ changeTimes w (construct irMem redMem) ps, 800 ≤ t := by
  obtain ⟨h1, h2⟩ := changeTimes_spaced w ps (construct irMem redMem)
    (by simp [construct]) hmono
    (fun p hp => ⟨Nat.zero_le _, hbound p hp⟩)
  refine ⟨h1, ?_⟩
  intro t ht
  have := h2 t ht
  simp only [construct] at this
  omega

/-- Witness for C18: weak-signal polls every 500 ms; the brightness changes at
1000, 2000 and 3000 ms only. -/
theorem adjustments_respect_cooldown_witness :
    changeTimes 16 (construct [] [])
      ((List.range 6).map fun i => weakPollAt (500 * (i + 1))) = [1000, 2000, 3000] ∧
    (changeTimes 16 (construct [] [])
      ((List.range 6).map fun i => weakPollAt (500 * (i + 1)))).Pairwise
        (fun a b => a + 800 ≤ b) :=
  ⟨by decide,
    (adjustments_respect_cooldown 16 [] []
      ((List.range 6).map fun i => weakPollAt (500 * (i + 1))) (by decide) (by decide)).1⟩

/-! ## Range of the smoothed values -/

theorem updateEMA_range (w : Nat) (hw : 16 ≤ w) (prev raw hi : Int) (hhi : hi ≤ 239)
    (hprev : prev = -1 ∨ (1 ≤ prev ∧ prev ≤ hi)) (hraw : 1 ≤ raw ∧ raw ≤ hi) :
    1 ≤ _updateEMA w prev raw ∧ _updateEMA w prev raw ≤ hi := by
  have hpow := pow_ge_of_sixteen w hw
  rcases hprev with h | h
  · subst h
    have : _updateEMA w (-1) raw = raw := by
      unfold _updateEMA; rw [if_pos (by omega)]
    rw [this]; exact hraw
  · rw [updateEMA_step w hw prev raw (by omega) (by omega) (by omega)]
    omega

theorem calculateVitals_keeps_range (w : Nat) (hw : 16 ≤ w) (est : Estimator) (s : State)
    (h : (s._smoothedSpO2 = -1 ∨ (1 ≤ s._smoothedSpO2 ∧ s._smoothedSpO2 ≤ 100)) ∧
      (s._smoothedHeartRate = -1 ∨ (1 ≤ s._smoothedHeartRate ∧ s._smoothedHeartRate ≤ 239))) :
    ((_calculateVitals w est s)._smoothedSpO2 = -1 ∨
      (1 ≤ (_calculateVitals w est s)._smoothedSpO2 ∧
        (_calculateVitals w est s)._smoothedSpO2 ≤ 100)) ∧
    ((_calculateVitals w est s)._smoothedHeartRate = -1 ∨
      (1 ≤ (_calculateVitals w est s)._smoothedHeartRate ∧
        (_calculateVitals w est s)._smoothedHeartRate ≤ 239)) := by
  cases hf : isFingerDetected s
  · rw [calculateVitals_absent w est s hf]
    exact h
  · obtain ⟨h1, h2, -⟩ := calculateVitals_present w est s _ hf rfl
    rw [h1, h2]
    constructor
    · split_ifs with hc
      · exact Or.inr (updateEMA_range w hw _ _ 100 (by omega) h.1 ⟨by omega, hc.2.2⟩)
      · exact h.1
    · split_ifs with hc
      · exact Or.inr (updateEMA_range w hw _ _ 239 (by omega) h.2 ⟨by omega, by omega⟩)
      · exact h.2

theorem update_keeps_range (w : Nat) (hw : 16 ≤ w) (p : Poll) (s : State)
    (h : (s._smoothedSpO2 = -1 ∨ (1 ≤ s._smoothedSpO2 ∧ s._smoothedSpO2 ≤ 100)) ∧
      (s._smoothedHeartRate = -1 ∨ (1 ≤ s._smoothedHeartRate ∧ s._smoothedHeartRate ≤ 239))) :
    ((update w p s)._smoothedSpO2 = -1 ∨
      (1 ≤ (update w p s)._smoothedSpO2 ∧ (update w p s)._smoothedSpO2 ≤ 100)) ∧
    ((update w p s)._smoothedHeartRate = -1 ∨
      (1 ≤ (update w p s)._smoothedHeartRate ∧ (update w p s)._smoothedHeartRate ≤ 239)) := by
  by_cases hfire : (_collectSensorData p.samples s)._bufferReady = true ∧
      CALCULATION_INTERVAL ≤ subU32 p.millisCalc s._lastCalculation
  · obtain ⟨u1, u2, -⟩ := update_fired w p s hfire
    obtain ⟨-, -, -, -, c5, c6, -, -⟩ := collect_frame p.samples s
    rw [u1, u2]
    exact calculateVitals_keeps_range w hw p.estimator _ (by rw [c5, c6]; exact h)
  · obtain ⟨n1, n2, -⟩ := update_not_fired w p s hfire
    rw [n1, n2]
    exact h

theorem reachable_vital_range (w : Nat) (hw : 16 ≤ w) (s : State) (h : Reachable w s) :
    (s._smoothedSpO2 = -1 ∨ (1 ≤ s._smoothedSpO2 ∧ s._smoothedSpO2 ≤ 100)) ∧
    (s._smoothedHeartRate = -1 ∨ (1 ≤ s._smoothedHeartRate ∧ s._smoothedHeartRate ≤ 239)) := by
  obtain ⟨irMem, redMem, calls, rfl⟩ := h
  have gen : ∀ (cs : List Call) (t : State),
      ((t._smoothedSpO2 = -1 ∨ (1 ≤ t._smoothedSpO2 ∧ t._smoothedSpO2 ≤ 100)) ∧
        (t._smoothedHeartRate = -1 ∨
          (1 ≤ t._smoothedHeartRate ∧ t._smoothedHeartRate ≤ 239))) →
      (((run w t cs)._smoothedSpO2 = -1 ∨
          (1 ≤ (run w t cs)._smoothedSpO2 ∧ (run w t cs)._smoothedSpO2 ≤ 100)) ∧
        ((run w t cs)._smoothedHeartRate = -1 ∨
          (1 ≤ (run w t cs)._smoothedHeartRate ∧ (run w t cs)._smoothedHeartRate ≤ 239))) := by
    intro cs
    induction cs with
    | nil => intro t ht; exact ht
    | cons c cs ih =>
      intro t ht
      apply ih (c.apply w t)
      cases c with
      | update p => exact update_keeps_range w hw p t ht
      | reset => exact ⟨Or.inl rfl, Or.inl rfl⟩
      | setAutoGain enabled => exact ht
      | begin sensorFound =>
        cases sensorFound
        · exact ht
        · exact ⟨Or.inl rfl, Or.inl rfl⟩
  exact gen calls (construct irMem redMem) ⟨Or.inl rfl, Or.inl rfl⟩

/-- C19: in every state reachable from a newly constructed object (`int` of at
least 16 bits) the smoothed saturation is -1 or in [1, 100] and the smoothed
heart rate is -1 or in [1, 239]; `getSpO2()` returns -1 or a value in
[1, 100], `getHeartRate()` -1 or a value in [1, 239], neither returns 0; and
for every in-range raw value the sum 7 * smoothed + 3 * raw formed by
`_updateEMA` is between 0 and 2390, so it and its two products fit in a 16-bit
`int`. -/
theorem smoothed_values_in_range (w : Nat) (hw : 16 ≤ w) (s : State) (h : Reachable w s) :
    (s._smoothedSpO2 = -1 ∨ (1 ≤ s._smoothedSpO2 ∧ s._smoothedSpO2 ≤ 100)) ∧
    (s._smoothedHeartRate = -1 ∨ (1 ≤ s._smoothedHeartRate ∧ s._smoothedHeartRate ≤ 239)) ∧
    (getSpO2 s = -1 ∨ (1 ≤ getSpO2 s ∧ getSpO2 s ≤ 100)) ∧
    (getHeartRate s = -1 ∨ (1 ≤ getHeartRate s ∧ getHeartRate s ≤ 239)) ∧
    getSpO2 s ≠ 0 ∧ getHeartRate s ≠ 0 ∧
    (∀ raw : Int, 0 < raw → raw ≤ 100 → 0 ≤ s._smoothedSpO2 →
      0 ≤ 7 * s._smoothedSpO2 + 3 * raw ∧ 7 * s._smoothedSpO2 + 3 * raw ≤ 2390 ∧
      fitsInt 16 (7 * s._smoothedSpO2) ∧ fitsInt 16 (3 * raw) ∧
      fitsInt 16 (7 * s._smoothedSpO2 + 3 * raw)) ∧
    (∀ raw : Int, 0 < raw → raw < 240 → 0 ≤ s._smoothedHeartRate →
      0 ≤ 7 * s._smoothedHeartRate + 3 * raw ∧ 7 * s._smoothedHeartRate + 3 * raw ≤ 2390 ∧
      fitsInt 16 (7 * s._smoothedHeartRate) ∧ fitsInt 16 (3 * raw) ∧
      fitsInt 16 (7 * s._smoothedHeartRate + 3 * raw)) := by
  obtain ⟨r1, r2⟩ := reachable_vital_range w hw s h
  obtain ⟨g1, g2⟩ := accessor_closed_form s
  have f16 : ∀ x : Int, 0 ≤ x → x ≤ 2390 → fitsInt 16 x := by
    intro x h0 h1
    unfold fitsInt
    norm_num
    omega
  refine ⟨r1, r2, ?_, ?_, ?_, ?_, ?_, ?_⟩
  · rw [g1]; split_ifs <;> omega
  · rw [g2]; split_ifs <;> omega
  · rw [g1]; split_ifs <;> omega
  · rw [g2]; split_ifs <;> omega
  · intro raw h0 h1 hs
    exact ⟨by omega, by omega, f16 _ (by omega) (by omega), f16 _ (by omega) (by omega),
      f16 _ (by omega) (by omega)⟩
  · intro raw h0 h1 hs
    exact ⟨by omega, by omega, f16 _ (by omega) (by omega), f16 _ (by omega) (by omega),
      f16 _ (by omega) (by omega)⟩

set_option maxRecDepth 100000 in
/-- Witness for C19: the state holding the stale readings 98 / 72. -/
theorem smoothed_values_in_range_witness :
    Reachable 16 staleReadingState ∧
    staleReadingState._smoothedSpO2 = 98 ∧ staleReadingState._smoothedHeartRate = 72 ∧
    (staleReadingState._smoothedSpO2 = -1 ∨
      (1 ≤ staleReadingState._smoothedSpO2 ∧ staleReadingState._smoothedSpO2 ≤ 100)) :=
  ⟨⟨[], [], _, rfl⟩, by decide, by decide,
    (smoothed_values_in_range 16 (by decide) staleReadingState ⟨[], [], _, rfl⟩).1⟩

/-- C20: in every state reachable from a newly constructed object (`int` of at
least 16 bits) the validity queries and the accessors agree: `isSpO2Valid()`
is true if and only if `getSpO2()` returns a value other than -1, and
`isHeartRateValid()` is true if and only if `getHeartRate()` returns a value
other than -1. -/
theorem validity_agrees_with_accessors (w : Nat) (hw : 16 ≤ w) (s : State)
    (h : Reachable w s) :
    (isSpO2Valid s = true ↔ getSpO2 s ≠ -1) ∧
    (isHeartRateValid s = true ↔ getHeartRate s ≠ -1) := by
  obtain ⟨r1, r2⟩ := reachable_vital_range w hw s h
  obtain ⟨g1, g2⟩ := accessor_closed_form s
  constructor
  · rw [g1]
    simp only [isSpO2Valid, Bool.and_eq_true, bne_iff_ne, ne_eq, decide_eq_true_eq]
    split_ifs with hc
    · constructor
      · intro _; omega
      · intro _; exact ⟨⟨hc.1, hc.2.1⟩, by omega⟩
    · constructor
      · intro hv; exact absurd ⟨hv.1.1, hv.1.2, by omega⟩ hc
      · intro hne; exact absurd rfl hne
  · rw [g2]
    simp only [isHeartRateValid, Bool.and_eq_true, bne_iff_ne, ne_eq, decide_eq_true_eq]
    split_ifs with hc
    · constructor
      · intro _; omega
      · intro _; exact ⟨⟨hc.1, hc.2.1⟩, by omega⟩
    · constructor
      · intro hv; exact absurd ⟨hv.1.1, hv.1.2, by omega⟩ hc
      · intro hne; exact absurd rfl hne

set_option maxRecDepth 100000 in
/-- Witness for C20: with the finger lifted both sides are false; with the
stale readings both are true. -/
theorem validity_agrees_with_accessors_witness :
    Reachable 16 fingerLiftedState ∧
    isSpO2Valid fingerLiftedState = false ∧ getSpO2 fingerLiftedState = -1 ∧
    isSpO2Valid staleReadingState = true ∧ getSpO2 staleReadingState = 98 ∧
    (isSpO2Valid fingerLiftedState = true ↔ getSpO2 fingerLiftedState ≠ -1) :=
  ⟨⟨[], [], _, rfl⟩, by decide, by decide, by decide, by decide,
    (validity_agrees_with_accessors 16 (by decide) fingerLiftedState ⟨[], [], _, rfl⟩).1⟩

/-! ## The accessors on reachable states -/

/-- C2: in every state of a session (reachable from a newly constructed object,
`int` of at least 16 bits) `getSpO2()` returns the smoothed saturation if the
finger is present, the saturation flag is set and the smoothed saturation is
> 0, and -1 in every other case; likewise `getHeartRate()` with the heart-rate
flag and the smoothed heart rate.  The same holds in any state whose smoothed
value is not 0. -/
theorem accessor_returns_smoothed_iff_gated (w : Nat) (hw : 16 ≤ w) (s : State)
    (h : Reachable w s) :
    getSpO2 s =
      (if isFingerDetected s = true ∧ s._validSpO2 ≠ 0 ∧ s._smoothedSpO2 > 0 then
        s._smoothedSpO2 else -1) ∧
    getHeartRate s =
      (if isFingerDetected s = true ∧ s._validHeartRate ≠ 0 ∧ s._smoothedHeartRate > 0 then
        s._smoothedHeartRate else -1) ∧
    (∀ t : State, t._smoothedSpO2 ≠ 0 →
      getSpO2 t =
        (if isFingerDetected t = true ∧ t._validSpO2 ≠ 0 ∧ t._smoothedSpO2 > 0 then
          t._smoothedSpO2 else -1)) ∧
    (∀ t : State, t._smoothedHeartRate ≠ 0 →
      getHeartRate t =
        (if isFingerDetected t = true ∧ t._validHeartRate ≠ 0 ∧ t._smoothedHeartRate > 0 then
          t._smoothedHeartRate else -1)) := by
  have sp : ∀ t : State, t._smoothedSpO2 ≠ 0 →
      getSpO2 t =
        (if isFingerDetected t = true ∧ t._validSpO2 ≠ 0 ∧ t._smoothedSpO2 > 0 then
          t._smoothedSpO2 else -1) := by
    intro t h0
    rw [(accessor_closed_form t).1]
    by_cases hc : isFingerDetected t = true ∧ t._validSpO2 ≠ 0 ∧ t._smoothedSpO2 > 0
    · rw [if_pos hc, if_pos ⟨hc.1, hc.2.1, by omega⟩]
    · rw [if_neg hc, if_neg (fun g => hc ⟨g.1, g.2.1, by omega⟩)]
  have hr : ∀ t : State, t._smoothedHeartRate ≠ 0 →
      getHeartRate t =
        (if isFingerDetected t = true ∧ t._validHeartRate ≠ 0 ∧ t._smoothedHeartRate > 0 then
          t._smoothedHeartRate else -1) := by
    intro t h0
    rw [(accessor_closed_form t).2]
    by_cases hc : isFingerDetected t = true ∧ t._validHeartRate ≠ 0 ∧ t._smoothedHeartRate > 0
    · rw [if_pos hc, if_pos ⟨hc.1, hc.2.1, by omega⟩]
    · rw [if_neg hc, if_neg (fun g => hc ⟨g.1, g.2.1, by omega⟩)]
  obtain ⟨r1, r2⟩ := reachable_vital_range w hw s h
  exact ⟨sp s (by omega), hr s (by omega), sp, hr⟩

set_option maxRecDepth 100000 in
/-- Witness for C2: with 98 / 72 stored and the finger present the accessors
return 98 and 72; after the finger is lifted they return -1. -/
theorem accessor_returns_smoothed_iff_gated_witness :
    Reachable 16 staleReadingState ∧
    getSpO2 staleReadingState = 98 ∧ getHeartRate staleReadingState = 72 ∧
    getSpO2 fingerLiftedState = -1 ∧
    getSpO2 staleReadingState =
      (if isFingerDetected staleReadingState = true ∧ staleReadingState._validSpO2 ≠ 0 ∧
          staleReadingState._smoothedSpO2 > 0 then
        staleReadingState._smoothedSpO2 else -1) :=
  ⟨⟨[], [], _, rfl⟩, by decide, by decide, by decide,
    (accessor_returns_smoothed_iff_gated 16 (by decide) staleReadingState
      ⟨[], [], _, rfl⟩).1⟩

end PulseOximeterWrapper
